import Mathlib

/-!
# Verification of the shift-management engine (`backend/routes/shift.py`)

Shallow embedding of the shift-generation/adjustment engine.

Conventions used throughout:
* Shift codes are `Nat`: Off = 0, Morning = 1, Evening = 2, Night = 3
  (`SHIFT_NAMES = {1:'Morning', 2:'Evenning', 3:'Night', 0:'Off'}` in the source).
* A schedule row (one employee's month) is `List (Option Nat)`; `none` is the
  Python `None` ("not yet decided").
* Employees are modelled as indices `0 .. n-1` into the roster list.  The
  Python code keys its dicts by the (distinct) employee names and iterates
  them in roster order, so a roster of `n` distinct names is behaviourally
  the index set `List.range n`.
* Python `random.choice` / `random.shuffle` are modelled by an explicit
  `Rand` parameter supplying the choice made at each call site.
-/

/-- One employee's row of the schedule matrix. -/
abbrev Row := List (Option Nat)

/-- The full matrix, one row per employee (indexed by roster position). -/
abbrev ShiftMatrix := List Row

/-- `TARGET_SHIFTS_PER_DAY = {1: 2, 2: 2, 3: 1}` from the source. -/
def TARGET_SHIFTS_PER_DAY (s : Nat) : Nat :=
  if s = 1 then 2 else if s = 2 then 2 else if s = 3 then 1 else 0

/-- Python list slice `l[a:b]` (for `a ≤ b`). -/
def pySlice (l : Row) (a b : Nat) : Row := (l.drop a).take (b - a)

/-- `is_shift_viable(employee_shifts, name, day, shift, total_days)` from the
source (lines 230-270).  The Python function reads only
`employee_shifts.get(name, [])`, so it is embedded as a function of that row.
`shift is None` returns `False`; `shift == 0` returns `True` (before the
bounds check); a non-`Off` candidate with `day >= len(shifts_list)` returns
`False` (the logged "index out of bounds" branch). -/
def is_shift_viable (shifts_list : Row) (day : Nat) (shift : Option Nat) : Bool :=
  match shift with
  | none => false
  | some s =>
    if s = 0 then true
    else if day ≥ shifts_list.length then false
    else
      let prev_shift : Option Nat := if day > 0 then shifts_list.getD (day - 1) none else none
      let prev_prev_shift : Option Nat := if day > 1 then shifts_list.getD (day - 2) none else none
      -- Mandatory Off after N-N
      if day ≥ 2 ∧ prev_prev_shift = some 3 ∧ prev_shift = some 3 ∧ s ≠ 0 then false
      -- M-after-N constraint
      else if s = 1 ∧ prev_shift = some 3 then false
      -- Max two consecutive nights
      else if s = 3 ∧ prev_shift = some 3 ∧ prev_prev_shift = some 3 then false
      -- Avoid N -> E -> M pattern
      else if s = 1 ∧ day ≥ 2 ∧ prev_shift = some 2 ∧ prev_prev_shift = some 3 then false
      -- Special patterns ending in M
      else if s = 1 ∧ day ≥ 3 ∧ pySlice shifts_list (day - 3) day = [some 3, some 2, some 2] then
        false
      else if s = 1 ∧ day ≥ 4 ∧
          (pySlice shifts_list (day - 4) day = [some 3, some 2, some 3, some 2] ∨
           pySlice shifts_list (day - 4) day = [some 2, some 3, some 2, some 2]) then false
      else true

/-- The value of the row on day `d - k`, or `none` when there is no such day.
Shared accessor for the claim-level legality description. -/
def prevDay (row : Row) (day k : Nat) : Option Nat :=
  if day ≥ k then row.getD (day - k) none else none

/-- The legality predicate as claim C1 states it: `Off` always viable; any
non-`Off` candidate illegal after two preceding Nights; `Morning` illegal
right after a Night; `Night` illegal after two preceding Nights; `Morning`
illegal when the preceding days match `[Night, Evening]`,
`[Night, Evening, Evening]`, `[Night, Evening, Night, Evening]` or
`[Evening, Night, Evening, Evening]`; otherwise viable. -/
def viable_claim (row : Row) (day : Nat) (s : Nat) : Bool :=
  if s = 0 then true
  else if prevDay row day 2 = some 3 ∧ prevDay row day 1 = some 3 then false
  else if s = 1 ∧ prevDay row day 1 = some 3 then false
  else if s = 3 ∧ prevDay row day 2 = some 3 ∧ prevDay row day 1 = some 3 then false
  else if s = 1 ∧ prevDay row day 2 = some 3 ∧ prevDay row day 1 = some 2 then false
  else if s = 1 ∧ prevDay row day 3 = some 3 ∧ prevDay row day 2 = some 2 ∧
      prevDay row day 1 = some 2 then false
  else if s = 1 ∧ prevDay row day 4 = some 3 ∧ prevDay row day 3 = some 2 ∧
      prevDay row day 2 = some 3 ∧ prevDay row day 1 = some 2 then false
  else if s = 1 ∧ prevDay row day 4 = some 2 ∧ prevDay row day 3 = some 3 ∧
      prevDay row day 2 = some 2 ∧ prevDay row day 1 = some 2 then false
  else true

/-! ## Generic machinery: stable sorting (Python `list.sort` / `sorted`),
`min(..., key=...)`, and loops with `break`. -/

/-- Lexicographic `≤` on integer key lists (Python tuple comparison). -/
def leLex : List Int → List Int → Bool
  | [], _ => true
  | _ :: _, [] => false
  | a :: as, b :: bs => if a < b then true else if b < a then false else leLex as bs

/-- Insert `x` after every element `y` with `le y x` (left fold gives a stable
insertion sort, matching Python's stable ascending sort). -/
def insertLe (le : α → α → Bool) (x : α) : List α → List α
  | [] => [x]
  | y :: ys => if le y x then y :: insertLe le x ys else x :: y :: ys

/-- Stable sort by a Python-style key tuple (ascending). -/
def sortByKey (key : α → List Int) (l : List α) : List α :=
  l.foldl (fun acc x => insertLe (fun a b => leLex (key a) (key b)) x acc) []

/-- Stable sort by key, descending (`sort(key=..., reverse=True)`). -/
def sortByKeyRev (key : α → List Int) (l : List α) : List α :=
  l.foldl (fun acc x => insertLe (fun a b => leLex (key b) (key a)) x acc) []

/-- Python `min(l, key=...)`: the first element attaining the minimal key. -/
def minByFirst (key : α → Int) : List α → Option α
  | [] => none
  | x :: xs => some (xs.foldl (fun cur y => if key y < key cur then y else cur) x)

/-- Fold with `break`: the step returns the new state and `true` to continue,
`false` to stop. -/
def foldlB (f : σ → α → σ × Bool) : σ → List α → σ
  | s, [] => s
  | s, x :: xs =>
    let r := f s x
    if r.2 then foldlB f r.1 xs else r.1

/-- First element of `l` satisfying `p` (Python `for ... if ...: break`). -/
def findFirst (p : α → Bool) (l : List α) : Option α := l.find? p

/-! ## Generation-run state

`employee_shifts` (the matrix), `shift_counts` (per employee, counts indexed
by shift code 0..3, kept as `Int` exactly like Python's unbounded ints), and
`days_with_offs_count` (per day). -/

structure GenState where
  shifts : ShiftMatrix
  counts : List (List Int)
  offs : List Nat
deriving Repr, DecidableEq

/-- `employee_shifts[name]` (`dict` lookup). -/
def mrow (m : ShiftMatrix) (e : Nat) : Row := m.getD e []

/-- `employee_shifts[name][day]`. -/
def mget (m : ShiftMatrix) (e day : Nat) : Option Nat := (mrow m e).getD day none

/-- `employee_shifts[name][day] = v`. -/
def mset (m : ShiftMatrix) (e day : Nat) (v : Option Nat) : ShiftMatrix :=
  m.set e ((mrow m e).set day v)

/-- `shift_counts[name][code]`. -/
def cget (c : List (List Int)) (e code : Nat) : Int := (c.getD e []).getD code 0

/-- `shift_counts[name][code] += delta`. -/
def cadd (c : List (List Int)) (e code : Nat) (delta : Int) : List (List Int) :=
  c.set e ((c.getD e []).set code ((c.getD e []).getD code 0 + delta))

/-- `days_with_offs_count[day]`. -/
def oget (o : List Nat) (day : Nat) : Nat := o.getD day 0

/-- `days_with_offs_count[day] = v`. -/
def oset (o : List Nat) (day : Nat) (v : Nat) : List Nat := o.set day v

/-- `sum(1 for emp in employee_names if employee_shifts[emp][day] == s)`:
the per-day coverage count recomputed by every phase. -/
def dayCount (names : List Nat) (m : ShiftMatrix) (day : Nat) (s : Nat) : Nat :=
  names.countP (fun e => mget m e day == some s)

/-- Explicit source of randomness: `choice l` models `random.choice(l)`
(returning an element of `l`), `shuffle l` models `random.shuffle` of a copy
of `l` (returning a permutation). -/
structure RandSrc where
  choice : List Nat → Nat
  shuffle : List Nat → List Nat

/-- The trivial deterministic instantiation: `choice` picks the head,
`shuffle` is the identity permutation. -/
def triv : RandSrc := ⟨fun l => l.headD 0, fun l => l⟩

/-! ## Phase 0: `assign_night_shift_pairs` (source lines 285-317)

State: the matrix, `days_with_offs_count`, `last_pair_end` (init `-100`) and
`night_assigned`.  `shift_counts` is not touched by this phase. -/

structure P0St where
  m : ShiftMatrix
  offs : List Nat
  lpe : List Int
  na : List Bool

/-- Body of the pairing loop `for day in range(total_days - 1)`. -/
def p0pairStep (names : List Nat) (total_days : Nat) (s : P0St) (day : Nat) : P0St :=
  if s.na.getD day false || s.na.getD (day + 1) false then s
  else
    let candidates := names.filter (fun e =>
      decide (s.lpe.getD e (-100) + 10 ≤ (day : Int)) &&
      mget s.m e day == none && mget s.m e (day + 1) == none &&
      (decide (day + 2 ≥ total_days) ||
        (mget s.m e (day + 2) == none && oget s.offs (day + 2) == 0)))
    match minByFirst (fun e => s.lpe.getD e (-100)) candidates with
    | none => s
    | some emp =>
      let m := mset (mset s.m emp day (some 3)) emp (day + 1) (some 3)
      let na := (s.na.set day true).set (day + 1) true
      let lpe := s.lpe.set emp ((day : Int) + 1)
      if day + 2 < total_days then
        ⟨mset m emp (day + 2) (some 0), oset s.offs (day + 2) 1, lpe, na⟩
      else ⟨m, s.offs, lpe, na⟩

/-- Body of the single-`N` loop `for day in range(total_days)`. -/
def p0singleStep (r : RandSrc) (names : List Nat) (s : P0St) (day : Nat) : P0St :=
  if s.na.getD day false then s
  else
    let candidates := names.filter (fun e =>
      mget s.m e day == none && is_shift_viable (mrow s.m e) day (some 3))
    if candidates.isEmpty then s
    else
      let emp := r.choice candidates
      { s with m := mset s.m emp day (some 3) }

/-- `assign_night_shift_pairs(employee_shifts, employee_names, total_days,
days_with_offs_count)`. -/
def assign_night_shift_pairs (r : RandSrc) (names : List Nat) (total_days : Nat)
    (m : ShiftMatrix) (offs : List Nat) : ShiftMatrix × List Nat :=
  let init : P0St := ⟨m, offs, names.map (fun _ => (-100 : Int)), List.replicate total_days false⟩
  let s1 := (List.range (total_days - 1)).foldl (p0pairStep names total_days) init
  let s2 := (List.range total_days).foldl (p0singleStep r names) s1
  (s2.m, s2.offs)

/-! ## Phase 1: Assign Off Days (source lines 336-409)

State adds `last_off_day` (init `-10`) and `weekday_offs` (a set per
employee). `max_offs = 5`, `max_consecutive_work_days = 7`. -/

structure P1St where
  m : ShiftMatrix
  c : List (List Int)
  offs : List Nat
  lastOff : List Int
  wdOffs : List (List Nat)

/-- `weekday_offs[employee].add(v)` (set insertion). -/
def wdAdd (w : List (List Nat)) (e v : Nat) : List (List Nat) :=
  let cur := w.getD e []
  if v ∈ cur then w else w.set e (cur ++ [v])

/-- The inner streak scan `for i in range(max_consecutive_work_days + 1)`:
returns `(work_streak, consecutive_work)`.  Breaks when the checked day is
before day 0 or holds an `Off`; counts assigned (non-`None`) cells. -/
def workStreak (row : Row) (day : Nat) : Bool × Nat :=
  foldlB (fun (st : Bool × Nat) (i : Nat) =>
    if day < i then (st, false)
    else match row.getD (day - i) none with
      | some 0 => ((false, st.2), false)
      | some _ => ((st.1, st.2 + 1), true)
      | none => (st, true)) (true, 0) (List.range 8)

/-- Stage A body for one `(day, employee)` pair: force an `Off` after more
than 7 consecutive worked days, when the day is free of offs and the
employee is under the 5-offs cap. -/
def p1aStep (s : P1St) (day e : Nat) : P1St :=
  if day ≥ 7 then
    let ws := workStreak (mrow s.m e) day
    if ws.1 && ws.2 > 7 then
      if mget s.m e day == none && oget s.offs day == 0 && decide (cget s.c e 0 < 5) then
        { m := mset s.m e day (some 0), c := cadd s.c e 0 1,
          offs := oset s.offs day (oget s.offs day + 1),
          lastOff := s.lastOff.set e (day : Int), wdOffs := wdAdd s.wdOffs e (day % 7) }
      else s
    else s
  else s

/-- `float('inf')` as it occurs in the Stage B score: every finite first
score component is at most `100`, so any constant above `100` models the
infinite score faithfully. -/
def INF_SCORE : Int := 1000000000

/-- Strict lexicographic comparison on score pairs. -/
def pairLt (a b : Int × Int) : Bool := a.1 < b.1 || (a.1 == b.1 && a.2 < b.2)

/-- Python `min` over score pairs (first minimal element). -/
def minLexPair : List (Int × Int) → Option (Int × Int)
  | [] => none
  | x :: xs => some (xs.foldl (fun cur y => if pairLt y cur then y else cur) x)

/-- Stage B body for one employee of one week: pick the best-scoring free
day of the week for an `Off` (or any open day as fallback). -/
def p1bEmp (week_start week_end : Nat) (s : P1St) (e : Nat) : P1St :=
  if decide (cget s.c e 0 ≥ 5) then s
  else
    let days := List.range' week_start (week_end - week_start)
    if days.any (fun d => mget s.m e d == some 0) then s
    else
      let viable : List ((Int × Int) × Nat) := days.filterMap (fun day =>
        if mget s.m e day != none || oget s.offs day > 0 then none
        else
          let same : Bool := decide ((day % 7) ∈ s.wdOffs.getD e [])
          let lo := s.lastOff.getD e (-10)
          let score1 : Int :=
            if lo ≥ 0 then
              let gap : Int := (day : Int) - lo
              if 5 ≤ gap ∧ gap ≤ 7 then |gap - 6| else 100
            else INF_SCORE
          some ((score1, if same then 1 else 0), day))
      let useFallback := viable.isEmpty ||
        (match minLexPair (viable.map (·.1)) with
         | some p => decide (p.1 ≥ 100)
         | none => true)
      let vlist :=
        if useFallback then
          days.filterMap (fun day =>
            if mget s.m e day == none && oget s.offs day == 0 then
              some (((1000 : Int), (0 : Int)), day)
            else none)
        else viable
      match (sortByKey (fun x => [x.1.1, x.1.2]) vlist).head? with
      | none => s
      | some best =>
        let day := best.2
        { m := mset s.m e day (some 0), c := cadd s.c e 0 1,
          offs := oset s.offs day (oget s.offs day + 1),
          lastOff := s.lastOff.set e (day : Int), wdOffs := wdAdd s.wdOffs e (day % 7) }

/-- The final sweep guaranteeing one `Off` per day. -/
def p1sweep (r : RandSrc) (names : List Nat) (s : P1St) (day : Nat) : P1St :=
  if oget s.offs day == 0 then
    let candidates := names.filter (fun e =>
      mget s.m e day == none && decide (cget s.c e 0 < 5))
    if candidates.isEmpty then s
    else
      let emp := r.choice candidates
      { s with m := mset s.m emp day (some 0), c := cadd s.c emp 0 1,
               offs := oset s.offs day 1 }
  else s

/-- One day of the Phase 1a sweep over all employees. -/
def p1aDay (names : List Nat) (s : P1St) (day : Nat) : P1St :=
  names.foldl (fun s e => p1aStep s day e) s

/-- One week of the Phase 1b weekend-distribution pass. -/
def p1bWeek (r : RandSrc) (names : List Nat) (total_days : Nat) (s : P1St)
    (week : Nat) : P1St :=
  let week_start := week * 7
  let week_end := min (week_start + 7) total_days
  (r.shuffle names).foldl (p1bEmp week_start week_end) s

/-- Phase 1 in full. -/
def phase1 (r : RandSrc) (names : List Nat) (total_days : Nat) (g : GenState) : GenState :=
  let total_weeks := (total_days + 6) / 7
  let init : P1St := ⟨g.shifts, g.counts, g.offs,
    names.map (fun _ => (-10 : Int)), names.map (fun _ => [])⟩
  let sA := (List.range total_days).foldl (p1aDay names) init
  let sB := (List.range total_weeks).foldl (p1bWeek r names total_days) sA
  let sC := (List.range total_days).foldl (p1sweep r names) sB
  ⟨sC.m, sC.c, sC.offs⟩

/-! ## Phase 2: Initial Shift Assignments, first 28 days (source lines 411-469) -/

/-- One target block of Phase 2 (Evening / Morning / Night in turn): fill the
deficit with the least-loaded viable available employees. -/
def p2assign (names : List Nat) (day code target : Nat)
    (st : GenState) (avail : List Nat) : GenState × List Nat :=
  let needed := target - dayCount names st.shifts day code
  if needed = 0 then (st, avail)
  else
    let cands := avail.filter (fun e => is_shift_viable (mrow st.shifts e) day (some code))
    let cands := sortByKey (fun e => [cget st.counts e code]) cands
    (cands.take needed).foldl (fun (acc : GenState × List Nat) emp =>
      ({ acc.1 with shifts := mset acc.1.shifts emp day (some code),
                    counts := cadd acc.1.counts emp code 1 },
       acc.2.erase emp)) (st, avail)

/-- The Phase 2 fallback pass for one still-unassigned employee: try Evening
(if under target), always Morning, then Night (if under target); leave
`None` when nothing is viable. -/
def p2fallback (names : List Nat) (day : Nat) (acc : GenState) (emp : Nat) : GenState :=
  let cd2 := dayCount names acc.shifts day 2
  let cd3 := dayCount names acc.shifts day 3
  let preferred := (if cd2 < TARGET_SHIFTS_PER_DAY 2 then [2] else []) ++ [1] ++
    (if cd3 < TARGET_SHIFTS_PER_DAY 3 then [3] else [])
  match findFirst (fun c => is_shift_viable (mrow acc.shifts emp) day (some c)) preferred with
  | some c => { acc with shifts := mset acc.shifts emp day (some c),
                         counts := cadd acc.counts emp c 1 }
  | none => acc

/-- One day of Phase 2. -/
def p2day (names : List Nat) (st : GenState) (day : Nat) : GenState :=
  let avail := names.filter (fun e => mget st.shifts e day == none)
  if avail.isEmpty then st
  else
    let r1 := p2assign names day 2 (TARGET_SHIFTS_PER_DAY 2) st avail
    let r2 := p2assign names day 1 (TARGET_SHIFTS_PER_DAY 1) r1.1 r1.2
    let r3 := p2assign names day 3 (TARGET_SHIFTS_PER_DAY 3) r2.1 r2.2
    r3.2.foldl (p2fallback names day) r3.1

/-- Phase 2: `for day in range(min(28, total_days))`. -/
def phase2 (names : List Nat) (total_days : Nat) (g : GenState) : GenState :=
  (List.range (min 28 total_days)).foldl (p2day names) g

/-! ## Phase 3: Apply 28-day pattern to days 28.. (source lines 471-491) -/

/-- One `(day, employee)` step of Phase 3. -/
def p3emp (day : Nat) (st : GenState) (e : Nat) : GenState :=
  if mget st.shifts e day != none then st
  else
    match mget st.shifts e (day % 28) with
    | none => st
    | some pat =>
      let assigned : Option Nat :=
        if is_shift_viable (mrow st.shifts e) day (some pat) then some pat
        else findFirst (fun c => is_shift_viable (mrow st.shifts e) day (some c)) [2, 1, 3]
      match assigned with
      | none => st
      | some s => { st with shifts := mset st.shifts e day (some s),
                            counts := cadd st.counts e s 1 }

/-- One day of Phase 3 over all employees. -/
def p3day (names : List Nat) (st : GenState) (day : Nat) : GenState :=
  names.foldl (p3emp day) st

/-- Phase 3 in full. -/
def phase3 (names : List Nat) (total_days : Nat) (g : GenState) : GenState :=
  (List.range' 28 (total_days - 28)).foldl (p3day names) g

/-! ## Phase 4: Balancing Shifts (source lines 493-576)

`shift_counts` is first recomputed from scratch from the matrix; then every
day is balanced for up to `MAX_BALANCE_ITERATIONS = 7` iterations. -/

/-- The recomputation `shift_counts = {...}` at the start of Phase 4. -/
def recountAll (total_days : Nat) (names : List Nat) (m : ShiftMatrix) : List (List Int) :=
  names.map (fun e =>
    [0, 1, 2, 3].map (fun k =>
      ((List.range total_days).countP (fun d => mget m e d == some k) : Int)))

/-- In-iteration balancing state: the generation state, the day's local
counts `shift_counts_day` (indexed by code), the per-code assignment lists
`assigned_employees`, and the `made_change` flag. -/
structure BalSt where
  g : GenState
  cd : List Int
  a1 : List Nat
  a2 : List Nat
  a3 : List Nat
  changed : Bool

/-- `shift_counts_day[k]`. -/
def bcd (b : BalSt) (k : Nat) : Int := b.cd.getD k 0

/-- `assigned_employees[k]`. -/
def basg (b : BalSt) (k : Nat) : List Nat :=
  if k = 1 then b.a1 else if k = 2 then b.a2 else b.a3

/-- Replace `assigned_employees[k]`. -/
def bsetAsg (b : BalSt) (k : Nat) (l : List Nat) : BalSt :=
  if k = 1 then { b with a1 := l } else if k = 2 then { b with a2 := l } else { b with a3 := l }

/-- One move `origin -> dest` inside the balancing loop, updating the matrix,
the global tallies, the day counts and the assignment lists. -/
def balMove (b : BalSt) (emp : Nat) (day origin dest : Nat) : BalSt :=
  let b' : BalSt := { b with
    g := { b.g with shifts := mset b.g.shifts emp day (some dest),
                    counts := cadd (cadd b.g.counts emp origin (-1)) emp dest 1 },
    cd := (b.cd.set origin (bcd b origin - 1)).set dest (bcd b dest + 1),
    changed := true }
  bsetAsg (bsetAsg b' origin ((basg b' origin).erase emp)) dest (basg b' dest ++ [emp])

/-- Over-target section: move the most-loaded workers of `code` to Morning
while the day count exceeds the target (and the move is viable). -/
def balOver (day code : Nat) (b : BalSt) : BalSt :=
  let target : Int := (TARGET_SHIFTS_PER_DAY code : Int)
  if bcd b code > target then
    let num_to_move := bcd b code - target
    let cands := sortByKeyRev (fun e => [cget b.g.counts e code]) (basg b code)
    (foldlB (fun (st : BalSt × Int) emp =>
      if st.2 ≥ num_to_move then (st, false)
      else if is_shift_viable (mrow st.1.g.shifts emp) day (some 1) then
        ((balMove st.1 emp day code 1, st.2 + 1), true)
      else (st, true)) (b, 0) cands).1
  else b

/-- Under-target Evening section: pull donors out of a Morning surplus into
Evening (this branch exists only for Evening in the source). -/
def balUnderE (day : Nat) (b : BalSt) : BalSt :=
  if bcd b 2 < (TARGET_SHIFTS_PER_DAY 2 : Int) then
    let num_needed := (TARGET_SHIFTS_PER_DAY 2 : Int) - bcd b 2
    let donors : List (Nat × Nat) :=
      if bcd b 1 > (TARGET_SHIFTS_PER_DAY 1 : Int) then b.a1.map (fun e => (e, 1)) else []
    let donors := sortByKey (fun p =>
      [if is_shift_viable (mrow b.g.shifts p.1) day (some 2) then 0 else 1,
       cget b.g.counts p.1 2]) donors
    (foldlB (fun (st : BalSt × Int) (p : Nat × Nat) =>
      if st.2 ≥ num_needed then (st, false)
      else if is_shift_viable (mrow st.1.g.shifts p.1) day (some 2) then
        ((balMove st.1 p.1 day p.2 2, st.2 + 1), true)
      else (st, true)) (b, 0) donors).1
  else b

/-- One iteration of the per-day balancing loop: balance Evening (over or
under target), then balance Night (over target only — the source has no
under-target branch for Night). -/
def balanceIter (names : List Nat) (day : Nat) (g : GenState) : BalSt :=
  let b0 : BalSt :=
    { g := g,
      cd := [0, 1, 2, 3].map (fun s => (dayCount names g.shifts day s : Int)),
      a1 := names.filter (fun e => mget g.shifts e day == some 1),
      a2 := names.filter (fun e => mget g.shifts e day == some 2),
      a3 := names.filter (fun e => mget g.shifts e day == some 3),
      changed := false }
  let b1 := if bcd b0 2 > (TARGET_SHIFTS_PER_DAY 2 : Int) then balOver day 2 b0
            else balUnderE day b0
  balOver day 3 b1

/-- The bounded iteration `for iteration in range(MAX_BALANCE_ITERATIONS)`
with early exit when an iteration makes no change. -/
def balanceDayGo (names : List Nat) (day : Nat) : Nat → GenState → GenState
  | 0, g => g
  | fuel + 1, g =>
    let b := balanceIter names day g
    if b.changed then balanceDayGo names day fuel b.g else b.g

/-- Balancing of a single day (`MAX_BALANCE_ITERATIONS = 7`). -/
def balanceDay (names : List Nat) (g : GenState) (day : Nat) : GenState :=
  balanceDayGo names day 7 g

/-- Phase 4 in full: recount, then balance every day. -/
def phase4 (names : List Nat) (total_days : Nat) (g : GenState) : GenState :=
  let g0 : GenState := { g with counts := recountAll total_days names g.shifts }
  (List.range total_days).foldl (balanceDay names) g0

/-! ## Phase 4.5: Guarantee Shift Presence (source lines 578-687)

Per day, a `while needs_check`-loop bounded by 5 iterations; each iteration
recomputes the day counts and tries to fix an absent Evening, Morning or
Night (in that order) by moving a donor out of a surplus (or, failing that,
an exactly-at-target) shift. -/

/-- Candidate donors from one source shift inside a Phase 4.5 fix: the
workers of `src`, taken when the day count relates to the target as required
(`strict` selects the surplus `>` form used first, otherwise the
exactly-at-target `==` form used when no surplus exists). -/
def srcCands (cd : List Int) (w : List Nat) (src : Nat) (strict : Bool) : List (Nat × Nat) :=
  let t : Int := (TARGET_SHIFTS_PER_DAY src : Int)
  let ok := if strict then cd.getD src 0 > t else cd.getD src 0 == t
  if ok then w.map (fun e => (e, src)) else []

/-- One fix attempt: move a donor into `targetCode` from sources `srcA`
(preferred) or `srcB`; returns the new state and whether a move happened. -/
def p45fix (names : List Nat) (day targetCode srcA srcB : Nat) (cd : List Int)
    (g : GenState) : GenState × Bool :=
  let aW := names.filter (fun e => mget g.shifts e day == some srcA)
  let bW := names.filter (fun e => mget g.shifts e day == some srcB)
  let cands := srcCands cd aW srcA true ++ srcCands cd bW srcB true
  let cands2 :=
    if cands.isEmpty then srcCands cd aW srcA false ++ srcCands cd bW srcB false
    else cands
  if cands2.isEmpty then (g, false)
  else
    let sorted := sortByKey (fun p =>
      [if is_shift_viable (mrow g.shifts p.1) day (some targetCode) then 0 else 1,
       cget g.counts p.1 targetCode,
       if p.2 = srcB then 1 else 0]) cands2
    match findFirst (fun p => is_shift_viable (mrow g.shifts p.1) day (some targetCode)) sorted with
    | none => (g, false)
    | some p =>
      ({ g with shifts := mset g.shifts p.1 day (some targetCode),
                counts := cadd (cadd g.counts p.1 p.2 (-1)) p.1 targetCode 1 }, true)

/-- The Night part of one Phase 4.5 iteration. -/
def p45iterN (names : List Nat) (day : Nat) (cd : List Int) (g : GenState) (flag : Bool) :
    GenState × Bool :=
  if cd.getD 3 0 == 0 then
    let r := p45fix names day 3 1 2 cd g
    if r.2 then (r.1, true) else (g, true)
  else (g, flag)

/-- The Morning part of one Phase 4.5 iteration. -/
def p45iterM (names : List Nat) (day : Nat) (cd : List Int) (g : GenState) (flag : Bool) :
    GenState × Bool :=
  if cd.getD 1 0 == 0 then
    let r := p45fix names day 1 2 3 cd g
    if r.2 then (r.1, true) else p45iterN names day cd g true
  else p45iterN names day cd g flag

/-- One iteration of the Phase 4.5 `while`-loop: returns the new state and
`needs_check` (whether to iterate again). A successful fix `continue`s the
loop; a triggered-but-failed fix falls through to the next section. -/
def p45iter (names : List Nat) (day : Nat) (g : GenState) : GenState × Bool :=
  let cd : List Int := [0, 1, 2, 3].map (fun s => (dayCount names g.shifts day s : Int))
  let working := cd.getD 1 0 + cd.getD 2 0 + cd.getD 3 0
  if working == 0 then (g, false)
  else if cd.getD 2 0 == 0 then
    let r := p45fix names day 2 1 3 cd g
    if r.2 then (r.1, true) else p45iterM names day cd g true
  else p45iterM names day cd g false

/-- The bounded `while needs_check and check_iteration < 5` loop. -/
def p45loop (names : List Nat) (day : Nat) : Nat → GenState → GenState
  | 0, g => g
  | fuel + 1, g =>
    let r := p45iter names day g
    if r.2 then p45loop names day fuel r.1 else r.1

/-- One day of Phase 4.5 (`max_check_iterations = 5`). -/
def p45dayGo (names : List Nat) (g : GenState) (day : Nat) : GenState :=
  p45loop names day 5 g

/-- Phase 4.5 in full. -/
def phase45 (names : List Nat) (total_days : Nat) (g : GenState) : GenState :=
  (List.range total_days).foldl (p45dayGo names) g

/-! ## Phase 4.6: Enforce at least one N-N block per employee
(source lines 689-707)

For an employee without a Night-Night block the first window of two
consecutive days whose cells are in `[None, 1, 2]` and are both viable as
Night is converted to Night-Night.  The tally update
`shift_counts[emp][old1] -= 1 if old1 is not None else 0` subscripts
`shift_counts[emp][None]` when the old cell was `None`, which raises
`KeyError` (the shift-count dict only has the keys 0-3); this is modelled by
`Except.error`. -/

/-- `any(shifts[d] == 3 and shifts[d+1] == 3 ...)`: does the employee's row
already contain a Night-Night block? -/
def hasNN (g : GenState) (e : Nat) (total_days : Nat) : Bool :=
  (List.range (total_days - 1)).any (fun d =>
    (mrow g.shifts e).getD d none == some 3 && (mrow g.shifts e).getD (d + 1) none == some 3)

/-- The Phase 4.6 window condition for days `(d, d+1)`: both cells in
`[None, 1, 2]` and both legal as Night.  Note that `Off` (`0`) is not in the
admissible list. -/
def nnWindowOk (g : GenState) (e : Nat) (d : Nat) : Bool :=
  (mget g.shifts e d == none || mget g.shifts e d == some 1 || mget g.shifts e d == some 2) &&
  (mget g.shifts e (d + 1) == none || mget g.shifts e (d + 1) == some 1 ||
    mget g.shifts e (d + 1) == some 2) &&
  is_shift_viable (mrow g.shifts e) d (some 3) &&
  is_shift_viable (mrow g.shifts e) (d + 1) (some 3)

def p46emp (total_days : Nat) (g : GenState) (e : Nat) : Except Unit GenState :=
  if hasNN g e total_days then .ok g
  else
    match findFirst (nnWindowOk g e) (List.range (total_days - 1)) with
    | none => .ok g
    | some day =>
      let old1 := mget g.shifts e day
      let old2 := mget g.shifts e (day + 1)
      let m := mset (mset g.shifts e day (some 3)) e (day + 1) (some 3)
      match old1 with
      | none => .error ()
      | some o1 =>
        let c1 := cadd g.counts e o1 (-1)
        match old2 with
        | none => .error ()
        | some o2 => .ok { g with shifts := m, counts := cadd (cadd c1 e o2 (-1)) e 3 2 }

/-- Phase 4.6 over all employees. -/
def phase46 (names : List Nat) (total_days : Nat) (g : GenState) : Except Unit GenState :=
  names.foldlM (p46emp total_days) g

/-! ## Phase 5: Final M-after-N Validation (source lines 709-748) -/

/-- One `(employee, day)` step of Phase 5: on `M` directly after `N`, swap
the `M` to `E` when viable (mitigating an Evening overflow by moving another
Evening worker to Morning), else to `Off` when the day has no off yet. -/
def p5day (names : List Nat) (e : Nat) (g : GenState) (day : Nat) : GenState :=
  let prev := mget g.shifts e (day - 1)
  let cur := mget g.shifts e day
  if !(cur == some 1 && prev == some 3) then g
  else if is_shift_viable (mrow g.shifts e) day (some 2) then
    let g1 : GenState := { g with shifts := mset g.shifts e day (some 2),
                                  counts := cadd (cadd g.counts e 1 (-1)) e 2 1 }
    if dayCount names g1.shifts day 2 > TARGET_SHIFTS_PER_DAY 2 then
      if dayCount names g1.shifts day 1 < TARGET_SHIFTS_PER_DAY 1 then
        let cands := (names.filter (fun x => mget g1.shifts x day == some 2 && x != e))
        let cands := sortByKey (fun x => [cget g1.counts x 1]) cands
        match findFirst (fun x => is_shift_viable (mrow g1.shifts x) day (some 1)) cands with
        | some se => { g1 with shifts := mset g1.shifts se day (some 1),
                               counts := cadd (cadd g1.counts se 2 (-1)) se 1 1 }
        | none => g1
      else g1
    else g1
  else if is_shift_viable (mrow g.shifts e) day (some 0) && oget g.offs day == 0 then
    { shifts := mset g.shifts e day (some 0),
      counts := cadd (cadd g.counts e 1 (-1)) e 0 1,
      offs := oset g.offs day 1 }
  else g

/-- Phase 5 for one employee over all days. -/
def p5emp (names : List Nat) (total_days : Nat) (g : GenState) (e : Nat) : GenState :=
  (List.range' 1 (total_days - 1)).foldl (p5day names e) g

/-- Phase 5 in full. -/
def phase5 (names : List Nat) (total_days : Nat) (g : GenState) : GenState :=
  names.foldl (p5emp names total_days) g

/-! ## Phase 6: Final Pattern / Consecutive Night Correction
(source lines 750-825) -/

/-- Loop 1, one `(employee, day)` step: a cell after a Night-Night block that
is assigned and not `Off` is forced to `Off` (unset cells are skipped), with
a best-effort replacement draft from another employee when the day's count
for the vacated code drops below target. -/
def p6nnDay (names : List Nat) (e : Nat) (g : GenState) (day : Nat) : GenState :=
  if !(mget g.shifts e (day - 2) == some 3 && mget g.shifts e (day - 1) == some 3 &&
       mget g.shifts e day != some 0 && mget g.shifts e day != none) then g
  else
    match mget g.shifts e day with
    | none => g
    | some orig =>
      let g1 : GenState :=
        { shifts := mset g.shifts e day (some 0),
          counts := cadd (cadd g.counts e orig (-1)) e 0 1,
          offs := oset g.offs day 1 }
      -- `orig` is one of 1, 2, 3 here, so `TARGET_SHIFTS_PER_DAY.get(orig)`
      -- is set and both Python branches compare the day count to it
      let below := dayCount names g1.shifts day orig < TARGET_SHIFTS_PER_DAY orig
      if below then
        let cands := names.filter (fun x => x != e && mget g1.shifts x day != some 0 &&
          mget g1.shifts x day != none && is_shift_viable (mrow g1.shifts x) day (some orig))
        if cands.isEmpty then g1
        else
          let sorted := sortByKey (fun x =>
            [cget g1.counts x orig, if mget g1.shifts x day != some 1 then 1 else 0]) cands
          let se := sorted.headD 0
          match mget g1.shifts se day with
          | some c => { g1 with shifts := mset g1.shifts se day (some orig),
                                counts := cadd (cadd g1.counts se c (-1)) se orig 1 }
          | none => g1
      else g1

/-- Loop 2, one `(employee, day)` step: a Morning completing one of the
forbidden patterns is forced to `Off`, with a best-effort replacement draft
for the Morning count. -/
def p6patDay (names : List Nat) (e : Nat) (g : GenState) (day : Nat) : GenState :=
  if mget g.shifts e day != some 1 then g
  else
    let row := mrow g.shifts e
    let nem := pySlice row (day - 2) day == [some 3, some 2]
    let nee := pySlice row (day - 3) day == [some 3, some 2, some 2]
    let nene := day ≥ 4 && pySlice row (day - 4) day == [some 3, some 2, some 3, some 2]
    let enee := day ≥ 4 && pySlice row (day - 4) day == [some 2, some 3, some 2, some 2]
    if !(nem || nee || nene || enee) then g
    else
      let g1 : GenState :=
        { shifts := mset g.shifts e day (some 0),
          counts := cadd (cadd g.counts e 1 (-1)) e 0 1,
          offs := oset g.offs day 1 }
      if dayCount names g1.shifts day 1 < TARGET_SHIFTS_PER_DAY 1 then
        let cands := names.filter (fun x => x != e &&
          (mget g1.shifts x day == some 2 || mget g1.shifts x day == some 3) &&
          is_shift_viable (mrow g1.shifts x) day (some 1))
        if cands.isEmpty then g1
        else
          let sorted := sortByKey (fun x =>
            [cget g1.counts x 1, if mget g1.shifts x day == some 3 then 1 else 0]) cands
          let se := sorted.headD 0
          match mget g1.shifts se day with
          | some c => { g1 with shifts := mset g1.shifts se day (some 1),
                                counts := cadd (cadd g1.counts se c (-1)) se 1 1 }
          | none => g1
      else g1

/-- Phase 6 for one employee: the N-N enforcement sweep, then the pattern
sweep. -/
def p6emp (names : List Nat) (total_days : Nat) (g : GenState) (e : Nat) : GenState :=
  let g1 := (List.range' 2 (total_days - 2)).foldl (p6nnDay names e) g
  (List.range' 3 (total_days - 3)).foldl (p6patDay names e) g1

/-- Phase 6 in full. -/
def phase6 (names : List Nat) (total_days : Nat) (g : GenState) : GenState :=
  names.foldl (p6emp names total_days) g

/-! ## `generate_optimized_shifts` (source lines 321-868)

Errors: the `ValueError("At least 6 employees required.")` guard
(`InsufficientRoster`) raised before the matrix is even created, and the
Phase 4.6 `KeyError` described above.  The final check (source lines
827-866) only logs and is omitted. -/

inductive GenErr where
  | insufficientRoster
  | keyError
deriving Repr, DecidableEq

/-- Phases 0 through 4.5 composed: the state handed to the Phase 4.6
Night-Block pass.  (`employee_names = list(roster)`, the all-`None` matrix,
zero counts and zero off-tallies initialize the run.) -/
def preNN (r : RandSrc) (n : Nat) (total_days : Nat) : GenState :=
  phase45 (List.range n) total_days (phase4 (List.range n) total_days
    (phase3 (List.range n) total_days (phase2 (List.range n) total_days
      (phase1 r (List.range n) total_days
        ⟨(assign_night_shift_pairs r (List.range n) total_days
            (List.replicate n (List.replicate total_days none))
            (List.replicate total_days 0)).1,
         List.replicate n [0, 0, 0, 0],
         (assign_night_shift_pairs r (List.range n) total_days
            (List.replicate n (List.replicate total_days none))
            (List.replicate total_days 0)).2⟩))))

def generate_optimized_shifts (r : RandSrc) (n : Nat) (total_days : Nat) :
    Except GenErr ShiftMatrix :=
  if n < TARGET_SHIFTS_PER_DAY 1 + TARGET_SHIFTS_PER_DAY 2 +
      TARGET_SHIFTS_PER_DAY 3 + 1 then .error .insufficientRoster
  else
    match phase46 (List.range n) total_days (preNN r n total_days) with
    | .error _ => .error .keyError
    | .ok st7 =>
      .ok ((phase6 (List.range n) total_days
        (phase5 (List.range n) total_days st7)).shifts)

/-! ## The stored schedule and the manual endpoints
(`adjust_shift`, source lines 1135-1224; `swap_shifts`, lines 1227-1267)

A `ShiftAssignment` row keyed by employee and date; dates are modelled as
`Int` day numbers (`base + day` for day-of-month `day`, so `base + day - 1`
is the previous calendar day even across a month boundary).  The store is
the list of rows; `(employee, date)` is unique in normal operation and
queries return the first match (`.first()`). -/

structure DbRec where
  emp : Nat
  day : Nat
  shift : Nat
  date : Int
deriving Repr, DecidableEq

abbrev Db := List DbRec

/-- `select(ShiftAssignment).where(employee_id == e, shift_date == d).first()`. -/
def dbLookup (db : Db) (e : Nat) (d : Int) : Option DbRec :=
  db.find? (fun rec => rec.emp == e && rec.date == d)

/-- Overwrite the shift of the first `(e, d)` row (ORM attribute update). -/
def dbUpdate (db : Db) (e : Nat) (d : Int) (s : Nat) : Db :=
  match db with
  | [] => []
  | rec :: rest =>
    if rec.emp == e && rec.date == d then { rec with shift := s } :: rest
    else rec :: dbUpdate rest e d s

/-- `session.delete` of the first `(e, d)` row. -/
def dbDelete (db : Db) (e : Nat) (d : Int) : Db :=
  match db with
  | [] => []
  | rec :: rest =>
    if rec.emp == e && rec.date == d then rest
    else rec :: dbDelete rest e d

/-- Errors surfaced by the manual endpoints (`HTTPException`s). -/
inductive EndpointErr where
  | notFound
  | invalidDay
  | invalidShift
  | indexError
  | sameEmployee
  | invalidTransition
deriving Repr, DecidableEq

/-- State threaded through the `adjust_shift` loop: the store, the running
`action` string and the last touched record. -/
structure AdjustSt where
  db : Db
  action : String
  last : Option DbRec
deriving Repr, DecidableEq

/-- One iteration of the `for i, day in enumerate(days)` loop of
`adjust_shift`.  The commented-out M-after-N / N-after-N rejections and the
commented-out imbalance warning are omitted exactly as in the source; the
previous-day lookup and the day-count recomputation still run but have no
effect on the result. -/
def adjustStep (dim : Nat) (base : Int) (emp : Nat) (newShifts : List Nat)
    (st : AdjustSt) (i : Nat) (day : Nat) : Except EndpointErr AdjustSt :=
  if day < 1 || day > dim then .error .invalidDay
  else
    match newShifts.get? i with
    | none => .error .indexError
    | some ns =>
      if !(ns == 0 || ns == 1 || ns == 2 || ns == 3) then .error .invalidShift
      else
        let shift_date : Int := base + day
        let assignment := dbLookup st.db emp shift_date
        match assignment with
        | none =>
          let newRec : DbRec := ⟨emp, day, ns, shift_date⟩
          .ok ⟨st.db ++ [newRec], "created", some newRec⟩
        | some rec =>
          if rec.shift != ns then
            let db' := dbUpdate st.db emp shift_date ns
            let act := if st.action == "unchanged" then "adjusted" else st.action
            .ok ⟨db', act, some { rec with shift := ns }⟩
          else .ok { st with last := some rec }

/-- `adjust_shift(employee_id, days, new_shifts, ...)`: employee lookup, the
per-day loop, and the commit guard `if action != "unchanged"`.  Returns the
final store and the reported action.  (In the source a run that ends
`"unchanged"` never calls `session.commit()`, and the loop makes no
`session.add` or attribute write in that case, so the store is untouched.) -/
def adjust_shift (employees : List Nat) (dim : Nat) (base : Int) (db : Db)
    (emp : Nat) (days : List Nat) (newShifts : List Nat) :
    Except EndpointErr (Db × String) :=
  if !(emp ∈ employees) then .error .notFound
  else
    let go : Except EndpointErr AdjustSt :=
      (days.enum.foldlM (fun st p => adjustStep dim base emp newShifts st p.1 p.2)
        ⟨db, "unchanged", none⟩)
    match go with
    | .error e => .error e
    | .ok st => .ok (st.db, st.action)

/-- `swap_shifts(employee1_id, employee2_id, day, ...)`, returning the final
store paired with the error, if any, raised along the way (the store at the
moment of the raise — all validation precedes any mutation in the source).
`InvalidTransition`-class rejections are the same-shift check and the four
M-after-N / N-after-N checks. -/
def swap_shifts (employees : List Nat) (dim : Nat) (base : Int) (db : Db)
    (e1 e2 : Nat) (day : Nat) : Db × Option EndpointErr :=
  if day < 1 || day > dim then (db, some .invalidDay)
  else if e1 == e2 then (db, some .sameEmployee)
  else if !(e1 ∈ employees) || !(e2 ∈ employees) then (db, some .notFound)
  else
    let shift_date : Int := base + day
    let a1 := dbLookup db e1 shift_date
    let a2 := dbLookup db e2 shift_date
    let s1 := (a1.map (·.shift)).getD 0
    let s2 := (a2.map (·.shift)).getD 0
    if s1 == s2 then (db, some .invalidTransition)
    else
      let prev_date : Int := shift_date - 1
      let prev_s1 := (dbLookup db e1 prev_date).map (·.shift)
      let prev_s2 := (dbLookup db e2 prev_date).map (·.shift)
      if s2 == 1 && prev_s1 == some 3 then (db, some .invalidTransition)
      else if s1 == 1 && prev_s2 == some 3 then (db, some .invalidTransition)
      else if s2 == 3 && prev_s1 == some 3 then (db, some .invalidTransition)
      else if s1 == 3 && prev_s2 == some 3 then (db, some .invalidTransition)
      else
        let db1 :=
          if s2 == 0 then
            match a1 with | some _ => dbDelete db e1 shift_date | none => db
          else
            match a1 with
            | some _ => dbUpdate db e1 shift_date s2
            | none => db ++ [⟨e1, day, s2, shift_date⟩]
        let db2 :=
          if s1 == 0 then
            match dbLookup db1 e2 shift_date with
            | some _ => dbDelete db1 e2 shift_date
            | none => db1
          else
            match dbLookup db1 e2 shift_date with
            | some _ => dbUpdate db1 e2 shift_date s1
            | none => db1 ++ [⟨e2, day, s1, shift_date⟩]
        (db2, none)

/-! ## Concrete instances used by counterexamples and witnesses

`RandSrc` instances must be realizable behaviours of `random.choice` /
`random.shuffle`: the choice functions pick an element of the list and the
shuffles are permutations (the identity and the reversal both are). -/

/-- `random.choice` takes the last candidate, `random.shuffle` reverses. -/
def lastRevRand : RandSrc := ⟨fun l => l.getLastD 0, fun l => l.reverse⟩

/-- `random.choice` takes the first candidate, `random.shuffle` reverses. -/
def headRevRand : RandSrc := ⟨fun l => l.headD 0, fun l => l.reverse⟩

/-- The final matrix of `generate_optimized_shifts lastRevRand 6 5`
(employees 0-5, days 0-4; codes O=0, M=1, E=2, N=3). -/
def c3final : ShiftMatrix :=
  [[some 3, some 3, some 0, some 1, some 2],
   [some 2, some 1, some 1, some 3, some 0],
   [some 3, some 3, some 0, some 1, some 1],
   [some 3, some 3, some 0, some 0, some 2],
   [some 1, some 0, some 2, some 3, some 1],
   [some 0, some 3, some 3, some 0, some 3]]

/-- A Phase 4.6 input in which employee 0 has no Night-Night block and an
`Off`-`Off` first window that is legal as Night-Night (all other employees
already hold a block). -/
def stOffOff : GenState :=
  ⟨[[some 0, some 0], [some 3, some 3], [some 3, some 3], [some 3, some 3],
    [some 3, some 3], [some 3, some 3]],
   [[2, 0, 0, 0], [0, 0, 0, 2], [0, 0, 0, 2], [0, 0, 0, 2], [0, 0, 0, 2], [0, 0, 0, 2]],
   [1, 1]⟩

/-- A Phase 4.6 input in which employee 0 has no Night-Night block and an
unset-unset first window that is legal as Night-Night. -/
def stNoneWin : GenState :=
  ⟨[[none, none], [some 3, some 3], [some 3, some 3], [some 3, some 3],
    [some 3, some 3], [some 3, some 3]],
   [[0, 0, 0, 0], [0, 0, 0, 2], [0, 0, 0, 2], [0, 0, 0, 2], [0, 0, 0, 2], [0, 0, 0, 2]],
   [0, 0]⟩

/-- A balancing input: on day 0 Morning has 3 workers, Evening 2, Night 0,
Off 1 — Night is under its target of 1 and every Morning worker could
legally move to Night. -/
def stNightZero : GenState :=
  ⟨[[some 1], [some 1], [some 1], [some 2], [some 2], [some 0]],
   [[0, 1, 0, 0], [0, 1, 0, 0], [0, 1, 0, 0], [0, 0, 1, 0], [0, 0, 1, 0], [1, 0, 0, 0]],
   [1]⟩

/-- Claim-side condition for C7, read off the spec's words: the swap is
rejected as an invalid transition exactly when both employees' current codes
for the day (defaulting to Off when unset) are equal, or giving either
employee their new code would place a Morning or a Night immediately after
that employee's day-1 Night. -/
def swap_reject_claim (db : Db) (base : Int) (e1 e2 : Nat) (day : Nat) : Bool :=
  let d : Int := base + day
  let s1 := ((dbLookup db e1 d).map (·.shift)).getD 0
  let s2 := ((dbLookup db e2 d).map (·.shift)).getD 0
  let p1 := (dbLookup db e1 (d - 1)).map (·.shift)
  let p2 := (dbLookup db e2 (d - 1)).map (·.shift)
  s1 == s2 || (s2 == 1 && p1 == some 3) || (s1 == 1 && p2 == some 3) ||
    (s2 == 3 && p1 == some 3) || (s1 == 3 && p2 == some 3)

/-! ## Recorded intermediate states of the 57-day run
(`headRevRand`, six employees) used by the C4 chunked evaluation -/

def c4P0m : ShiftMatrix :=
  [[some 3, some 3, some 0, none, none, none, none, none, none, none, none, none, some 3, some 3, some 0, none, none, none, none, none, none, none, none, none, some 3, some 3, some 0, none, none, none, none, none, none, none, none, none, some 3, some 3, some 0, none, none, none, none, none, none, none, none, none, some 3, some 3, some 0, none, none, none, none, none, some 3],
   [none, none, some 3, some 3, some 0, none, none, none, none, none, none, none, none, none, some 3, some 3, some 0, none, none, none, none, none, none, none, none, none, some 3, some 3, some 0, none, none, none, none, none, none, none, none, none, some 3, some 3, some 0, none, none, none, none, none, none, none, none, none, some 3, some 3, some 0, none, none, none, none],
   [none, none, none, none, some 3, some 3, some 0, none, none, none, none, none, none, none, none, none, some 3, some 3, some 0, none, none, none, none, none, none, none, none, none, some 3, some 3, some 0, none, none, none, none, none, none, none, none, none, some 3, some 3, some 0, none, none, none, none, none, none, none, none, none, some 3, some 3, some 0, none, none],
   [none, none, none, none, none, none, some 3, some 3, some 0, none, none, none, none, none, none, none, none, none, some 3, some 3, some 0, none, none, none, none, none, none, none, none, none, some 3, some 3, some 0, none, none, none, none, none, none, none, none, none, some 3, some 3, some 0, none, none, none, none, none, none, none, none, none, some 3, some 3, some 0],
   [none, none, none, none, none, none, none, none, some 3, some 3, some 0, none, none, none, none, none, none, none, none, none, some 3, some 3, some 0, none, none, none, none, none, none, none, none, none, some 3, some 3, some 0, none, none, none, none, none, none, none, none, none, some 3, some 3, some 0, none, none, none, none, none, none, none, none, none, none],
   [none, none, none, none, none, none, none, none, none, none, some 3, some 3, some 0, none, none, none, none, none, none, none, none, none, some 3, some 3, some 0, none, none, none, none, none, none, none, none, none, some 3, some 3, some 0, none, none, none, none, none, none, none, none, none, some 3, some 3, some 0, none, none, none, none, none, none, none, none]]

def c4P0o : List Nat :=
  [0, 0, 1, 0, 1, 0, 1, 0, 1, 0, 1, 0, 1, 0, 1, 0, 1, 0, 1, 0, 1, 0, 1, 0, 1, 0, 1, 0, 1, 0, 1, 0, 1, 0, 1, 0, 1, 0, 1, 0, 1, 0, 1, 0, 1, 0, 1, 0, 1, 0, 1, 0, 1, 0, 1, 0, 1]

def c4A : P1St :=
  ⟨c4P0m, List.replicate 6 [0, 0, 0, 0], c4P0o,
   [-10, -10, -10, -10, -10, -10], [[], [], [], [], [], []]⟩

def c4B : P1St :=
  ⟨[[some 3, some 3, some 0, none, none, none, none, none, none, none, none, some 0, some 3, some 3, some 0, none, none, none, none, none, none, none, none, none, some 3, some 3, some 0, none, none, none, none, some 0, none, none, none, none, some 3, some 3, some 0, none, none, none, none, none, none, some 0, none, none, some 3, some 3, some 0, none, none, none, none, none, some 3],
   [none, none, some 3, some 3, some 0, none, none, none, none, some 0, none, none, none, none, some 3, some 3, some 0, none, none, none, none, none, none, none, none, some 0, some 3, some 3, some 0, none, none, none, none, none, none, none, none, none, some 3, some 3, some 0, none, none, some 0, none, none, none, none, none, none, some 3, some 3, some 0, none, none, none, none],
   [none, none, none, none, some 3, some 3, some 0, some 0, none, none, none, none, none, none, none, none, some 3, some 3, some 0, none, none, none, none, some 0, none, none, none, none, some 3, some 3, some 0, none, none, none, none, none, none, none, none, some 0, some 3, some 3, some 0, none, none, none, none, none, none, none, none, none, some 3, some 3, some 0, none, none],
   [none, none, none, some 0, none, none, some 3, some 3, some 0, none, none, none, none, none, none, none, none, none, some 3, some 3, some 0, some 0, none, none, none, none, none, none, none, none, some 3, some 3, some 0, none, none, none, none, some 0, none, none, none, none, some 3, some 3, some 0, none, none, none, none, none, none, none, none, some 0, some 3, some 3, some 0],
   [none, some 0, none, none, none, none, none, none, some 3, some 3, some 0, none, none, none, none, none, none, some 0, none, none, some 3, some 3, some 0, none, none, none, none, none, none, none, none, none, some 3, some 3, some 0, some 0, none, none, none, none, none, none, none, none, some 3, some 3, some 0, none, none, none, none, some 0, none, none, none, none, none],
   [some 0, none, none, none, none, none, none, none, none, none, some 3, some 3, some 0, none, none, some 0, none, none, none, none, none, none, some 3, some 3, some 0, none, none, none, none, some 0, none, none, none, none, some 3, some 3, some 0, none, none, none, none, none, none, none, none, none, some 3, some 3, some 0, some 0, none, none, none, none, none, none, none]],
   [[3, 0, 0, 0], [3, 0, 0, 0], [3, 0, 0, 0], [4, 0, 0, 0], [4, 0, 0, 0], [4, 0, 0, 0]],
   [1, 1, 1, 1, 1, 0, 1, 1, 1, 1, 1, 1, 1, 0, 1, 1, 1, 1, 1, 0, 1, 1, 1, 1, 1, 1, 1, 0, 1, 1, 1, 1, 1, 0, 1, 1, 1, 1, 1, 1, 1, 0, 1, 1, 1, 1, 1, 0, 1, 1, 1, 1, 1, 1, 1, 0, 1],
   [45, 43, 39, 53, 51, 49],
   [[4, 3], [2, 4, 1], [0, 2, 4], [3, 0, 2, 4], [1, 3, 0, 2], [0, 1]]⟩

def c4C10 : P1St :=
  ⟨[[some 3, some 3, some 0, none, none, some 0, none, none, none, none, none, some 0, some 3, some 3, some 0, none, none, none, none, none, none, none, none, none, some 3, some 3, some 0, none, none, none, none, some 0, none, none, none, none, some 3, some 3, some 0, none, none, none, none, none, none, some 0, none, none, some 3, some 3, some 0, none, none, none, none, none, some 3],
   [none, none, some 3, some 3, some 0, none, none, none, none, some 0, none, none, none, none, some 3, some 3, some 0, none, none, none, none, none, none, none, none, some 0, some 3, some 3, some 0, none, none, none, none, none, none, none, none, none, some 3, some 3, some 0, none, none, some 0, none, none, none, none, none, none, some 3, some 3, some 0, none, none, none, none],
   [none, none, none, none, some 3, some 3, some 0, some 0, none, none, none, none, none, none, none, none, some 3, some 3, some 0, none, none, none, none, some 0, none, none, none, none, some 3, some 3, some 0, none, none, none, none, none, none, none, none, some 0, some 3, some 3, some 0, none, none, none, none, none, none, none, none, none, some 3, some 3, some 0, none, none],
   [none, none, none, some 0, none, none, some 3, some 3, some 0, none, none, none, none, none, none, none, none, none, some 3, some 3, some 0, some 0, none, none, none, none, none, none, none, none, some 3, some 3, some 0, none, none, none, none, some 0, none, none, none, none, some 3, some 3, some 0, none, none, none, none, none, none, none, none, some 0, some 3, some 3, some 0],
   [none, some 0, none, none, none, none, none, none, some 3, some 3, some 0, none, none, none, none, none, none, some 0, none, none, some 3, some 3, some 0, none, none, none, none, none, none, none, none, none, some 3, some 3, some 0, some 0, none, none, none, none, none, none, none, none, some 3, some 3, some 0, none, none, none, none, some 0, none, none, none, none, none],
   [some 0, none, none, none, none, none, none, none, none, none, some 3, some 3, some 0, none, none, some 0, none, none, none, none, none, none, some 3, some 3, some 0, none, none, none, none, some 0, none, none, none, none, some 3, some 3, some 0, none, none, none, none, none, none, none, none, none, some 3, some 3, some 0, some 0, none, none, none, none, none, none, none]],
   [[4, 0, 0, 0], [3, 0, 0, 0], [3, 0, 0, 0], [4, 0, 0, 0], [4, 0, 0, 0], [4, 0, 0, 0]],
   [1, 1, 1, 1, 1, 1, 1, 1, 1, 1, 1, 1, 1, 0, 1, 1, 1, 1, 1, 0, 1, 1, 1, 1, 1, 1, 1, 0, 1, 1, 1, 1, 1, 0, 1, 1, 1, 1, 1, 1, 1, 0, 1, 1, 1, 1, 1, 0, 1, 1, 1, 1, 1, 1, 1, 0, 1],
   [45, 43, 39, 53, 51, 49],
   [[4, 3], [2, 4, 1], [0, 2, 4], [3, 0, 2, 4], [1, 3, 0, 2], [0, 1]]⟩

def c4C20 : P1St :=
  ⟨[[some 3, some 3, some 0, none, none, some 0, none, none, none, none, none, some 0, some 3, some 3, some 0, none, none, none, none, some 0, none, none, none, none, some 3, some 3, some 0, none, none, none, none, some 0, none, none, none, none, some 3, some 3, some 0, none, none, none, none, none, none, some 0, none, none, some 3, some 3, some 0, none, none, none, none, none, some 3],
   [none, none, some 3, some 3, some 0, none, none, none, none, some 0, none, none, none, some 0, some 3, some 3, some 0, none, none, none, none, none, none, none, none, some 0, some 3, some 3, some 0, none, none, none, none, none, none, none, none, none, some 3, some 3, some 0, none, none, some 0, none, none, none, none, none, none, some 3, some 3, some 0, none, none, none, none],
   [none, none, none, none, some 3, some 3, some 0, some 0, none, none, none, none, none, none, none, none, some 3, some 3, some 0, none, none, none, none, some 0, none, none, none, none, some 3, some 3, some 0, none, none, none, none, none, none, none, none, some 0, some 3, some 3, some 0, none, none, none, none, none, none, none, none, none, some 3, some 3, some 0, none, none],
   [none, none, none, some 0, none, none, some 3, some 3, some 0, none, none, none, none, none, none, none, none, none, some 3, some 3, some 0, some 0, none, none, none, none, none, none, none, none, some 3, some 3, some 0, none, none, none, none, some 0, none, none, none, none, some 3, some 3, some 0, none, none, none, none, none, none, none, none, some 0, some 3, some 3, some 0],
   [none, some 0, none, none, none, none, none, none, some 3, some 3, some 0, none, none, none, none, none, none, some 0, none, none, some 3, some 3, some 0, none, none, none, none, none, none, none, none, none, some 3, some 3, some 0, some 0, none, none, none, none, none, none, none, none, some 3, some 3, some 0, none, none, none, none, some 0, none, none, none, none, none],
   [some 0, none, none, none, none, none, none, none, none, none, some 3, some 3, some 0, none, none, some 0, none, none, none, none, none, none, some 3, some 3, some 0, none, none, none, none, some 0, none, none, none, none, some 3, some 3, some 0, none, none, none, none, none, none, none, none, none, some 3, some 3, some 0, some 0, none, none, none, none, none, none, none]],
   [[5, 0, 0, 0], [4, 0, 0, 0], [3, 0, 0, 0], [4, 0, 0, 0], [4, 0, 0, 0], [4, 0, 0, 0]],
   [1, 1, 1, 1, 1, 1, 1, 1, 1, 1, 1, 1, 1, 1, 1, 1, 1, 1, 1, 1, 1, 1, 1, 1, 1, 1, 1, 0, 1, 1, 1, 1, 1, 0, 1, 1, 1, 1, 1, 1, 1, 0, 1, 1, 1, 1, 1, 0, 1, 1, 1, 1, 1, 1, 1, 0, 1],
   [45, 43, 39, 53, 51, 49],
   [[4, 3], [2, 4, 1], [0, 2, 4], [3, 0, 2, 4], [1, 3, 0, 2], [0, 1]]⟩

def c4C30 : P1St :=
  ⟨[[some 3, some 3, some 0, none, none, some 0, none, none, none, none, none, some 0, some 3, some 3, some 0, none, none, none, none, some 0, none, none, none, none, some 3, some 3, some 0, none, none, none, none, some 0, none, none, none, none, some 3, some 3, some 0, none, none, none, none, none, none, some 0, none, none, some 3, some 3, some 0, none, none, none, none, none, some 3],
   [none, none, some 3, some 3, some 0, none, none, none, none, some 0, none, none, none, some 0, some 3, some 3, some 0, none, none, none, none, none, none, none, none, some 0, some 3, some 3, some 0, none, none, none, none, none, none, none, none, none, some 3, some 3, some 0, none, none, some 0, none, none, none, none, none, none, some 3, some 3, some 0, none, none, none, none],
   [none, none, none, none, some 3, some 3, some 0, some 0, none, none, none, none, none, none, none, none, some 3, some 3, some 0, none, none, none, none, some 0, none, none, none, some 0, some 3, some 3, some 0, none, none, none, none, none, none, none, none, some 0, some 3, some 3, some 0, none, none, none, none, none, none, none, none, none, some 3, some 3, some 0, none, none],
   [none, none, none, some 0, none, none, some 3, some 3, some 0, none, none, none, none, none, none, none, none, none, some 3, some 3, some 0, some 0, none, none, none, none, none, none, none, none, some 3, some 3, some 0, none, none, none, none, some 0, none, none, none, none, some 3, some 3, some 0, none, none, none, none, none, none, none, none, some 0, some 3, some 3, some 0],
   [none, some 0, none, none, none, none, none, none, some 3, some 3, some 0, none, none, none, none, none, none, some 0, none, none, some 3, some 3, some 0, none, none, none, none, none, none, none, none, none, some 3, some 3, some 0, some 0, none, none, none, none, none, none, none, none, some 3, some 3, some 0, none, none, none, none, some 0, none, none, none, none, none],
   [some 0, none, none, none, none, none, none, none, none, none, some 3, some 3, some 0, none, none, some 0, none, none, none, none, none, none, some 3, some 3, some 0, none, none, none, none, some 0, none, none, none, none, some 3, some 3, some 0, none, none, none, none, none, none, none, none, none, some 3, some 3, some 0, some 0, none, none, none, none, none, none, none]],
   [[5, 0, 0, 0], [4, 0, 0, 0], [4, 0, 0, 0], [4, 0, 0, 0], [4, 0, 0, 0], [4, 0, 0, 0]],
   [1, 1, 1, 1, 1, 1, 1, 1, 1, 1, 1, 1, 1, 1, 1, 1, 1, 1, 1, 1, 1, 1, 1, 1, 1, 1, 1, 1, 1, 1, 1, 1, 1, 0, 1, 1, 1, 1, 1, 1, 1, 0, 1, 1, 1, 1, 1, 0, 1, 1, 1, 1, 1, 1, 1, 0, 1],
   [45, 43, 39, 53, 51, 49],
   [[4, 3], [2, 4, 1], [0, 2, 4], [3, 0, 2, 4], [1, 3, 0, 2], [0, 1]]⟩

def c4C40 : P1St :=
  ⟨[[some 3, some 3, some 0, none, none, some 0, none, none, none, none, none, some 0, some 3, some 3, some 0, none, none, none, none, some 0, none, none, none, none, some 3, some 3, some 0, none, none, none, none, some 0, none, none, none, none, some 3, some 3, some 0, none, none, none, none, none, none, some 0, none, none, some 3, some 3, some 0, none, none, none, none, none, some 3],
   [none, none, some 3, some 3, some 0, none, none, none, none, some 0, none, none, none, some 0, some 3, some 3, some 0, none, none, none, none, none, none, none, none, some 0, some 3, some 3, some 0, none, none, none, none, some 0, none, none, none, none, some 3, some 3, some 0, none, none, some 0, none, none, none, none, none, none, some 3, some 3, some 0, none, none, none, none],
   [none, none, none, none, some 3, some 3, some 0, some 0, none, none, none, none, none, none, none, none, some 3, some 3, some 0, none, none, none, none, some 0, none, none, none, some 0, some 3, some 3, some 0, none, none, none, none, none, none, none, none, some 0, some 3, some 3, some 0, none, none, none, none, none, none, none, none, none, some 3, some 3, some 0, none, none],
   [none, none, none, some 0, none, none, some 3, some 3, some 0, none, none, none, none, none, none, none, none, none, some 3, some 3, some 0, some 0, none, none, none, none, none, none, none, none, some 3, some 3, some 0, none, none, none, none, some 0, none, none, none, none, some 3, some 3, some 0, none, none, none, none, none, none, none, none, some 0, some 3, some 3, some 0],
   [none, some 0, none, none, none, none, none, none, some 3, some 3, some 0, none, none, none, none, none, none, some 0, none, none, some 3, some 3, some 0, none, none, none, none, none, none, none, none, none, some 3, some 3, some 0, some 0, none, none, none, none, none, none, none, none, some 3, some 3, some 0, none, none, none, none, some 0, none, none, none, none, none],
   [some 0, none, none, none, none, none, none, none, none, none, some 3, some 3, some 0, none, none, some 0, none, none, none, none, none, none, some 3, some 3, some 0, none, none, none, none, some 0, none, none, none, none, some 3, some 3, some 0, none, none, none, none, none, none, none, none, none, some 3, some 3, some 0, some 0, none, none, none, none, none, none, none]],
   [[5, 0, 0, 0], [5, 0, 0, 0], [4, 0, 0, 0], [4, 0, 0, 0], [4, 0, 0, 0], [4, 0, 0, 0]],
   [1, 1, 1, 1, 1, 1, 1, 1, 1, 1, 1, 1, 1, 1, 1, 1, 1, 1, 1, 1, 1, 1, 1, 1, 1, 1, 1, 1, 1, 1, 1, 1, 1, 1, 1, 1, 1, 1, 1, 1, 1, 0, 1, 1, 1, 1, 1, 0, 1, 1, 1, 1, 1, 1, 1, 0, 1],
   [45, 43, 39, 53, 51, 49],
   [[4, 3], [2, 4, 1], [0, 2, 4], [3, 0, 2, 4], [1, 3, 0, 2], [0, 1]]⟩

def c4C50 : P1St :=
  ⟨[[some 3, some 3, some 0, none, none, some 0, none, none, none, none, none, some 0, some 3, some 3, some 0, none, none, none, none, some 0, none, none, none, none, some 3, some 3, some 0, none, none, none, none, some 0, none, none, none, none, some 3, some 3, some 0, none, none, none, none, none, none, some 0, none, none, some 3, some 3, some 0, none, none, none, none, none, some 3],
   [none, none, some 3, some 3, some 0, none, none, none, none, some 0, none, none, none, some 0, some 3, some 3, some 0, none, none, none, none, none, none, none, none, some 0, some 3, some 3, some 0, none, none, none, none, some 0, none, none, none, none, some 3, some 3, some 0, none, none, some 0, none, none, none, none, none, none, some 3, some 3, some 0, none, none, none, none],
   [none, none, none, none, some 3, some 3, some 0, some 0, none, none, none, none, none, none, none, none, some 3, some 3, some 0, none, none, none, none, some 0, none, none, none, some 0, some 3, some 3, some 0, none, none, none, none, none, none, none, none, some 0, some 3, some 3, some 0, none, none, none, none, some 0, none, none, none, none, some 3, some 3, some 0, none, none],
   [none, none, none, some 0, none, none, some 3, some 3, some 0, none, none, none, none, none, none, none, none, none, some 3, some 3, some 0, some 0, none, none, none, none, none, none, none, none, some 3, some 3, some 0, none, none, none, none, some 0, none, none, none, some 0, some 3, some 3, some 0, none, none, none, none, none, none, none, none, some 0, some 3, some 3, some 0],
   [none, some 0, none, none, none, none, none, none, some 3, some 3, some 0, none, none, none, none, none, none, some 0, none, none, some 3, some 3, some 0, none, none, none, none, none, none, none, none, none, some 3, some 3, some 0, some 0, none, none, none, none, none, none, none, none, some 3, some 3, some 0, none, none, none, none, some 0, none, none, none, none, none],
   [some 0, none, none, none, none, none, none, none, none, none, some 3, some 3, some 0, none, none, some 0, none, none, none, none, none, none, some 3, some 3, some 0, none, none, none, none, some 0, none, none, none, none, some 3, some 3, some 0, none, none, none, none, none, none, none, none, none, some 3, some 3, some 0, some 0, none, none, none, none, none, none, none]],
   [[5, 0, 0, 0], [5, 0, 0, 0], [5, 0, 0, 0], [5, 0, 0, 0], [4, 0, 0, 0], [4, 0, 0, 0]],
   [1, 1, 1, 1, 1, 1, 1, 1, 1, 1, 1, 1, 1, 1, 1, 1, 1, 1, 1, 1, 1, 1, 1, 1, 1, 1, 1, 1, 1, 1, 1, 1, 1, 1, 1, 1, 1, 1, 1, 1, 1, 1, 1, 1, 1, 1, 1, 1, 1, 1, 1, 1, 1, 1, 1, 0, 1],
   [45, 43, 39, 53, 51, 49],
   [[4, 3], [2, 4, 1], [0, 2, 4], [3, 0, 2, 4], [1, 3, 0, 2], [0, 1]]⟩

def c4C57 : P1St :=
  ⟨[[some 3, some 3, some 0, none, none, some 0, none, none, none, none, none, some 0, some 3, some 3, some 0, none, none, none, none, some 0, none, none, none, none, some 3, some 3, some 0, none, none, none, none, some 0, none, none, none, none, some 3, some 3, some 0, none, none, none, none, none, none, some 0, none, none, some 3, some 3, some 0, none, none, none, none, none, some 3],
   [none, none, some 3, some 3, some 0, none, none, none, none, some 0, none, none, none, some 0, some 3, some 3, some 0, none, none, none, none, none, none, none, none, some 0, some 3, some 3, some 0, none, none, none, none, some 0, none, none, none, none, some 3, some 3, some 0, none, none, some 0, none, none, none, none, none, none, some 3, some 3, some 0, none, none, none, none],
   [none, none, none, none, some 3, some 3, some 0, some 0, none, none, none, none, none, none, none, none, some 3, some 3, some 0, none, none, none, none, some 0, none, none, none, some 0, some 3, some 3, some 0, none, none, none, none, none, none, none, none, some 0, some 3, some 3, some 0, none, none, none, none, some 0, none, none, none, none, some 3, some 3, some 0, none, none],
   [none, none, none, some 0, none, none, some 3, some 3, some 0, none, none, none, none, none, none, none, none, none, some 3, some 3, some 0, some 0, none, none, none, none, none, none, none, none, some 3, some 3, some 0, none, none, none, none, some 0, none, none, none, some 0, some 3, some 3, some 0, none, none, none, none, none, none, none, none, some 0, some 3, some 3, some 0],
   [none, some 0, none, none, none, none, none, none, some 3, some 3, some 0, none, none, none, none, none, none, some 0, none, none, some 3, some 3, some 0, none, none, none, none, none, none, none, none, none, some 3, some 3, some 0, some 0, none, none, none, none, none, none, none, none, some 3, some 3, some 0, none, none, none, none, some 0, none, none, none, some 0, none],
   [some 0, none, none, none, none, none, none, none, none, none, some 3, some 3, some 0, none, none, some 0, none, none, none, none, none, none, some 3, some 3, some 0, none, none, none, none, some 0, none, none, none, none, some 3, some 3, some 0, none, none, none, none, none, none, none, none, none, some 3, some 3, some 0, some 0, none, none, none, none, none, none, none]],
   [[5, 0, 0, 0], [5, 0, 0, 0], [5, 0, 0, 0], [5, 0, 0, 0], [5, 0, 0, 0], [4, 0, 0, 0]],
   [1, 1, 1, 1, 1, 1, 1, 1, 1, 1, 1, 1, 1, 1, 1, 1, 1, 1, 1, 1, 1, 1, 1, 1, 1, 1, 1, 1, 1, 1, 1, 1, 1, 1, 1, 1, 1, 1, 1, 1, 1, 1, 1, 1, 1, 1, 1, 1, 1, 1, 1, 1, 1, 1, 1, 1, 1],
   [45, 43, 39, 53, 51, 49],
   [[4, 3], [2, 4, 1], [0, 2, 4], [3, 0, 2, 4], [1, 3, 0, 2], [0, 1]]⟩

def c4G2 : GenState := ⟨c4C57.m, c4C57.c, c4C57.offs⟩

def c4P2a : GenState :=
  ⟨[[some 3, some 3, some 0, some 2, some 2, some 0, some 2, none, none, none, none, some 0, some 3, some 3, some 0, none, none, none, none, some 0, none, none, none, none, some 3, some 3, some 0, none, none, none, none, some 0, none, none, none, none, some 3, some 3, some 0, none, none, none, none, none, none, some 0, none, none, some 3, some 3, some 0, none, none, none, none, none, some 3],
   [some 2, some 1, some 3, some 3, some 0, some 2, some 2, none, none, some 0, none, none, none, some 0, some 3, some 3, some 0, none, none, none, none, none, none, none, none, some 0, some 3, some 3, some 0, none, none, none, none, some 0, none, none, none, none, some 3, some 3, some 0, none, none, some 0, none, none, none, none, none, none, some 3, some 3, some 0, none, none, none, none],
   [some 2, some 1, some 2, some 1, some 3, some 3, some 0, some 0, none, none, none, none, none, none, none, none, some 3, some 3, some 0, none, none, none, none, some 0, none, none, none, some 0, some 3, some 3, some 0, none, none, none, none, none, none, none, none, some 0, some 3, some 3, some 0, none, none, none, none, some 0, none, none, none, none, some 3, some 3, some 0, none, none],
   [some 1, some 2, some 1, some 0, some 2, some 1, some 3, some 3, some 0, none, none, none, none, none, none, none, none, none, some 3, some 3, some 0, some 0, none, none, none, none, none, none, none, none, some 3, some 3, some 0, none, none, none, none, some 0, none, none, none, some 0, some 3, some 3, some 0, none, none, none, none, none, none, none, none, some 0, some 3, some 3, some 0],
   [some 1, some 0, some 2, some 2, some 1, some 1, some 1, none, some 3, some 3, some 0, none, none, none, none, none, none, some 0, none, none, some 3, some 3, some 0, none, none, none, none, none, none, none, none, none, some 3, some 3, some 0, some 0, none, none, none, none, none, none, none, none, some 3, some 3, some 0, none, none, none, none, some 0, none, none, none, some 0, none],
   [some 0, some 2, some 1, some 1, some 1, some 2, some 1, none, none, none, some 3, some 3, some 0, none, none, some 0, none, none, none, none, none, none, some 3, some 3, some 0, none, none, none, none, some 0, none, none, none, none, some 3, some 3, some 0, none, none, none, none, none, none, none, none, none, some 3, some 3, some 0, some 0, none, none, none, none, none, none, none]],
   [[5, 0, 3, 0], [5, 1, 3, 0], [5, 2, 2, 0], [5, 3, 2, 0], [5, 4, 2, 0], [4, 4, 2, 0]],
   [1, 1, 1, 1, 1, 1, 1, 1, 1, 1, 1, 1, 1, 1, 1, 1, 1, 1, 1, 1, 1, 1, 1, 1, 1, 1, 1, 1, 1, 1, 1, 1, 1, 1, 1, 1, 1, 1, 1, 1, 1, 1, 1, 1, 1, 1, 1, 1, 1, 1, 1, 1, 1, 1, 1, 1, 1]⟩

def c4P2b : GenState :=
  ⟨[[some 3, some 3, some 0, some 2, some 2, some 0, some 2, some 1, some 2, some 1, some 1, some 0, some 3, some 3, some 0, none, none, none, none, some 0, none, none, none, none, some 3, some 3, some 0, none, none, none, none, some 0, none, none, none, none, some 3, some 3, some 0, none, none, none, none, none, none, some 0, none, none, some 3, some 3, some 0, none, none, none, none, none, some 3],
   [some 2, some 1, some 3, some 3, some 0, some 2, some 2, some 1, some 1, some 0, some 2, some 2, some 1, some 0, some 3, some 3, some 0, none, none, none, none, none, none, none, none, some 0, some 3, some 3, some 0, none, none, none, none, some 0, none, none, none, none, some 3, some 3, some 0, none, none, some 0, none, none, none, none, none, none, some 3, some 3, some 0, none, none, none, none],
   [some 2, some 1, some 2, some 1, some 3, some 3, some 0, some 0, some 2, some 2, some 1, some 1, some 2, some 1, none, none, some 3, some 3, some 0, none, none, none, none, some 0, none, none, none, some 0, some 3, some 3, some 0, none, none, none, none, none, none, none, none, some 0, some 3, some 3, some 0, none, none, none, none, some 0, none, none, none, none, some 3, some 3, some 0, none, none],
   [some 1, some 2, some 1, some 0, some 2, some 1, some 3, some 3, some 0, some 2, some 2, some 1, some 2, some 1, none, none, none, none, some 3, some 3, some 0, some 0, none, none, none, none, none, none, none, none, some 3, some 3, some 0, none, none, none, none, some 0, none, none, none, some 0, some 3, some 3, some 0, none, none, none, none, none, none, none, none, some 0, some 3, some 3, some 0],
   [some 1, some 0, some 2, some 2, some 1, some 1, some 1, some 2, some 3, some 3, some 0, some 2, some 1, some 2, none, none, none, some 0, none, none, some 3, some 3, some 0, none, none, none, none, none, none, none, none, none, some 3, some 3, some 0, some 0, none, none, none, none, none, none, none, none, some 3, some 3, some 0, none, none, none, none, some 0, none, none, none, some 0, none],
   [some 0, some 2, some 1, some 1, some 1, some 2, some 1, some 2, some 1, some 1, some 3, some 3, some 0, some 2, none, some 0, none, none, none, none, none, none, some 3, some 3, some 0, none, none, none, none, some 0, none, none, none, none, some 3, some 3, some 0, none, none, none, none, none, none, none, none, none, some 3, some 3, some 0, some 0, none, none, none, none, none, none, none]],
   [[5, 3, 4, 0], [5, 4, 5, 0], [5, 5, 5, 0], [5, 5, 5, 0], [5, 5, 5, 0], [4, 6, 4, 0]],
   [1, 1, 1, 1, 1, 1, 1, 1, 1, 1, 1, 1, 1, 1, 1, 1, 1, 1, 1, 1, 1, 1, 1, 1, 1, 1, 1, 1, 1, 1, 1, 1, 1, 1, 1, 1, 1, 1, 1, 1, 1, 1, 1, 1, 1, 1, 1, 1, 1, 1, 1, 1, 1, 1, 1, 1, 1]⟩

def c4P2c : GenState :=
  ⟨[[some 3, some 3, some 0, some 2, some 2, some 0, some 2, some 1, some 2, some 1, some 1, some 0, some 3, some 3, some 0, some 2, some 2, some 1, some 2, some 0, some 2, none, none, none, some 3, some 3, some 0, none, none, none, none, some 0, none, none, none, none, some 3, some 3, some 0, none, none, none, none, none, none, some 0, none, none, some 3, some 3, some 0, none, none, none, none, none, some 3],
   [some 2, some 1, some 3, some 3, some 0, some 2, some 2, some 1, some 1, some 0, some 2, some 2, some 1, some 0, some 3, some 3, some 0, some 2, some 2, some 1, some 1, none, none, none, none, some 0, some 3, some 3, some 0, none, none, none, none, some 0, none, none, none, none, some 3, some 3, some 0, none, none, some 0, none, none, none, none, none, none, some 3, some 3, some 0, none, none, none, none],
   [some 2, some 1, some 2, some 1, some 3, some 3, some 0, some 0, some 2, some 2, some 1, some 1, some 2, some 1, some 2, some 1, some 3, some 3, some 0, some 2, some 1, none, none, some 0, none, none, none, some 0, some 3, some 3, some 0, none, none, none, none, none, none, none, none, some 0, some 3, some 3, some 0, none, none, none, none, some 0, none, none, none, none, some 3, some 3, some 0, none, none],
   [some 1, some 2, some 1, some 0, some 2, some 1, some 3, some 3, some 0, some 2, some 2, some 1, some 2, some 1, some 1, some 2, some 1, some 1, some 3, some 3, some 0, some 0, none, none, none, none, none, none, none, none, some 3, some 3, some 0, none, none, none, none, some 0, none, none, none, some 0, some 3, some 3, some 0, none, none, none, none, none, none, none, none, some 0, some 3, some 3, some 0],
   [some 1, some 0, some 2, some 2, some 1, some 1, some 1, some 2, some 3, some 3, some 0, some 2, some 1, some 2, some 1, some 1, some 2, some 0, some 1, some 2, some 3, some 3, some 0, none, none, none, none, none, none, none, none, none, some 3, some 3, some 0, some 0, none, none, none, none, none, none, none, none, some 3, some 3, some 0, none, none, none, none, some 0, none, none, none, some 0, none],
   [some 0, some 2, some 1, some 1, some 1, some 2, some 1, some 2, some 1, some 1, some 3, some 3, some 0, some 2, some 2, some 0, some 1, some 2, some 1, some 1, some 2, none, some 3, some 3, some 0, none, none, none, none, some 0, none, none, none, none, some 3, some 3, some 0, none, none, none, none, none, none, none, none, none, some 3, some 3, some 0, some 0, none, none, none, none, none, none, none]],
   [[5, 4, 8, 0], [5, 6, 7, 0], [5, 7, 7, 0], [5, 8, 6, 0], [5, 8, 7, 0], [4, 9, 7, 0]],
   [1, 1, 1, 1, 1, 1, 1, 1, 1, 1, 1, 1, 1, 1, 1, 1, 1, 1, 1, 1, 1, 1, 1, 1, 1, 1, 1, 1, 1, 1, 1, 1, 1, 1, 1, 1, 1, 1, 1, 1, 1, 1, 1, 1, 1, 1, 1, 1, 1, 1, 1, 1, 1, 1, 1, 1, 1]⟩

def c4G3 : GenState :=
  ⟨[[some 3, some 3, some 0, some 2, some 2, some 0, some 2, some 1, some 2, some 1, some 1, some 0, some 3, some 3, some 0, some 2, some 2, some 1, some 2, some 0, some 2, some 1, some 2, some 1, some 3, some 3, some 0, some 2, none, none, none, some 0, none, none, none, none, some 3, some 3, some 0, none, none, none, none, none, none, some 0, none, none, some 3, some 3, some 0, none, none, none, none, none, some 3],
   [some 2, some 1, some 3, some 3, some 0, some 2, some 2, some 1, some 1, some 0, some 2, some 2, some 1, some 0, some 3, some 3, some 0, some 2, some 2, some 1, some 1, some 2, some 1, some 1, some 2, some 0, some 3, some 3, some 0, none, none, none, none, some 0, none, none, none, none, some 3, some 3, some 0, none, none, some 0, none, none, none, none, none, none, some 3, some 3, some 0, none, none, none, none],
   [some 2, some 1, some 2, some 1, some 3, some 3, some 0, some 0, some 2, some 2, some 1, some 1, some 2, some 1, some 2, some 1, some 3, some 3, some 0, some 2, some 1, some 2, some 1, some 0, some 2, some 1, some 1, some 0, some 3, some 3, some 0, none, none, none, none, none, none, none, none, some 0, some 3, some 3, some 0, none, none, none, none, some 0, none, none, none, none, some 3, some 3, some 0, none, none],
   [some 1, some 2, some 1, some 0, some 2, some 1, some 3, some 3, some 0, some 2, some 2, some 1, some 2, some 1, some 1, some 2, some 1, some 1, some 3, some 3, some 0, some 0, some 2, some 2, some 1, some 2, some 1, some 2, none, none, some 3, some 3, some 0, none, none, none, none, some 0, none, none, none, some 0, some 3, some 3, some 0, none, none, none, none, none, none, none, none, some 0, some 3, some 3, some 0],
   [some 1, some 0, some 2, some 2, some 1, some 1, some 1, some 2, some 3, some 3, some 0, some 2, some 1, some 2, some 1, some 1, some 2, some 0, some 1, some 2, some 3, some 3, some 0, some 2, some 1, some 1, some 2, some 1, none, none, none, none, some 3, some 3, some 0, some 0, none, none, none, none, none, none, none, none, some 3, some 3, some 0, none, none, none, none, some 0, none, none, none, some 0, none],
   [some 0, some 2, some 1, some 1, some 1, some 2, some 1, some 2, some 1, some 1, some 3, some 3, some 0, some 2, some 2, some 0, some 1, some 2, some 1, some 1, some 2, some 1, some 3, some 3, some 0, some 2, some 2, some 1, none, some 0, none, none, none, none, some 3, some 3, some 0, none, none, none, none, none, none, none, none, none, some 3, some 3, some 0, some 0, none, none, none, none, none, none, none]],
   [[5, 6, 10, 0], [5, 8, 9, 0], [5, 10, 9, 0], [5, 10, 10, 0], [5, 11, 9, 0], [4, 11, 9, 0]],
   [1, 1, 1, 1, 1, 1, 1, 1, 1, 1, 1, 1, 1, 1, 1, 1, 1, 1, 1, 1, 1, 1, 1, 1, 1, 1, 1, 1, 1, 1, 1, 1, 1, 1, 1, 1, 1, 1, 1, 1, 1, 1, 1, 1, 1, 1, 1, 1, 1, 1, 1, 1, 1, 1, 1, 1, 1]⟩

def c4P3a : GenState :=
  ⟨[[some 3, some 3, some 0, some 2, some 2, some 0, some 2, some 1, some 2, some 1, some 1, some 0, some 3, some 3, some 0, some 2, some 2, some 1, some 2, some 0, some 2, some 1, some 2, some 1, some 3, some 3, some 0, some 2, some 3, some 3, some 0, some 0, some 2, some 0, some 2, some 1, some 3, some 3, some 0, none, none, none, none, none, none, some 0, none, none, some 3, some 3, some 0, none, none, none, none, none, some 3],
   [some 2, some 1, some 3, some 3, some 0, some 2, some 2, some 1, some 1, some 0, some 2, some 2, some 1, some 0, some 3, some 3, some 0, some 2, some 2, some 1, some 1, some 2, some 1, some 1, some 2, some 0, some 3, some 3, some 0, some 1, some 3, some 3, some 0, some 0, some 2, some 1, some 1, some 0, some 3, some 3, some 0, none, none, some 0, none, none, none, none, none, none, some 3, some 3, some 0, none, none, none, none],
   [some 2, some 1, some 2, some 1, some 3, some 3, some 0, some 0, some 2, some 2, some 1, some 1, some 2, some 1, some 2, some 1, some 3, some 3, some 0, some 2, some 1, some 2, some 1, some 0, some 2, some 1, some 1, some 0, some 3, some 3, some 0, some 1, some 3, some 3, some 0, some 0, some 2, some 2, none, some 0, some 3, some 3, some 0, none, none, none, none, some 0, none, none, none, none, some 3, some 3, some 0, none, none],
   [some 1, some 2, some 1, some 0, some 2, some 1, some 3, some 3, some 0, some 2, some 2, some 1, some 2, some 1, some 1, some 2, some 1, some 1, some 3, some 3, some 0, some 0, some 2, some 2, some 1, some 2, some 1, some 2, some 1, some 2, some 3, some 3, some 0, some 1, some 3, some 3, some 0, some 0, none, none, none, some 0, some 3, some 3, some 0, none, none, none, none, none, none, none, none, some 0, some 3, some 3, some 0],
   [some 1, some 0, some 2, some 2, some 1, some 1, some 1, some 2, some 3, some 3, some 0, some 2, some 1, some 2, some 1, some 1, some 2, some 0, some 1, some 2, some 3, some 3, some 0, some 2, some 1, some 1, some 2, some 1, some 1, some 0, some 2, some 2, some 3, some 3, some 0, some 0, some 3, some 3, none, none, none, none, none, none, some 3, some 3, some 0, none, none, none, none, some 0, none, none, none, some 0, none],
   [some 0, some 2, some 1, some 1, some 1, some 2, some 1, some 2, some 1, some 1, some 3, some 3, some 0, some 2, some 2, some 0, some 1, some 2, some 1, some 1, some 2, some 1, some 3, some 3, some 0, some 2, some 2, some 1, some 0, some 0, some 1, some 1, some 1, some 2, some 3, some 3, some 0, some 1, none, none, none, none, none, none, none, none, some 3, some 3, some 0, some 0, none, none, none, none, none, none, none]],
   [[7, 7, 12, 2], [7, 11, 10, 2], [7, 11, 11, 2], [6, 12, 11, 2], [6, 12, 11, 2], [5, 15, 10, 0]],
   [1, 1, 1, 1, 1, 1, 1, 1, 1, 1, 1, 1, 1, 1, 1, 1, 1, 1, 1, 1, 1, 1, 1, 1, 1, 1, 1, 1, 1, 1, 1, 1, 1, 1, 1, 1, 1, 1, 1, 1, 1, 1, 1, 1, 1, 1, 1, 1, 1, 1, 1, 1, 1, 1, 1, 1, 1]⟩

def c4P3b : GenState :=
  ⟨[[some 3, some 3, some 0, some 2, some 2, some 0, some 2, some 1, some 2, some 1, some 1, some 0, some 3, some 3, some 0, some 2, some 2, some 1, some 2, some 0, some 2, some 1, some 2, some 1, some 3, some 3, some 0, some 2, some 3, some 3, some 0, some 0, some 2, some 0, some 2, some 1, some 3, some 3, some 0, some 0, some 3, some 3, some 0, some 2, some 2, some 0, some 2, some 0, some 3, some 3, some 0, none, none, none, none, none, some 3],
   [some 2, some 1, some 3, some 3, some 0, some 2, some 2, some 1, some 1, some 0, some 2, some 2, some 1, some 0, some 3, some 3, some 0, some 2, some 2, some 1, some 1, some 2, some 1, some 1, some 2, some 0, some 3, some 3, some 0, some 1, some 3, some 3, some 0, some 0, some 2, some 1, some 1, some 0, some 3, some 3, some 0, some 0, some 3, some 0, some 0, some 2, some 2, some 1, none, none, some 3, some 3, some 0, none, none, none, none],
   [some 2, some 1, some 2, some 1, some 3, some 3, some 0, some 0, some 2, some 2, some 1, some 1, some 2, some 1, some 2, some 1, some 3, some 3, some 0, some 2, some 1, some 2, some 1, some 0, some 2, some 1, some 1, some 0, some 3, some 3, some 0, some 1, some 3, some 3, some 0, some 0, some 2, some 2, some 1, some 0, some 3, some 3, some 0, some 1, some 3, some 3, some 0, some 0, none, none, none, none, some 3, some 3, some 0, none, none],
   [some 1, some 2, some 1, some 0, some 2, some 1, some 3, some 3, some 0, some 2, some 2, some 1, some 2, some 1, some 1, some 2, some 1, some 1, some 3, some 3, some 0, some 0, some 2, some 2, some 1, some 2, some 1, some 2, some 1, some 2, some 3, some 3, some 0, some 1, some 3, some 3, some 0, some 0, some 2, some 1, some 2, some 0, some 3, some 3, some 0, some 1, some 3, some 3, none, none, none, none, none, some 0, some 3, some 3, some 0],
   [some 1, some 0, some 2, some 2, some 1, some 1, some 1, some 2, some 3, some 3, some 0, some 2, some 1, some 2, some 1, some 1, some 2, some 0, some 1, some 2, some 3, some 3, some 0, some 2, some 1, some 1, some 2, some 1, some 1, some 0, some 2, some 2, some 3, some 3, some 0, some 0, some 3, some 3, some 0, some 2, some 1, some 2, some 1, some 1, some 3, some 3, some 0, some 2, none, none, none, some 0, none, none, none, some 0, none],
   [some 0, some 2, some 1, some 1, some 1, some 2, some 1, some 2, some 1, some 1, some 3, some 3, some 0, some 2, some 2, some 0, some 1, some 2, some 1, some 1, some 2, some 1, some 3, some 3, some 0, some 2, some 2, some 1, some 0, some 0, some 1, some 1, some 1, some 2, some 3, some 3, some 0, some 1, some 3, some 3, some 0, some 2, some 2, some 0, some 1, some 2, some 3, some 3, some 0, some 0, none, none, none, none, none, none, none]],
   [[10, 7, 15, 4], [9, 12, 12, 3], [8, 13, 11, 4], [6, 14, 13, 4], [7, 15, 14, 2], [7, 16, 13, 2]],
   [1, 1, 1, 1, 1, 1, 1, 1, 1, 1, 1, 1, 1, 1, 1, 1, 1, 1, 1, 1, 1, 1, 1, 1, 1, 1, 1, 1, 1, 1, 1, 1, 1, 1, 1, 1, 1, 1, 1, 1, 1, 1, 1, 1, 1, 1, 1, 1, 1, 1, 1, 1, 1, 1, 1, 1, 1]⟩

def c4G4 : GenState :=
  ⟨[[some 3, some 3, some 0, some 2, some 2, some 0, some 2, some 1, some 2, some 1, some 1, some 0, some 3, some 3, some 0, some 2, some 2, some 1, some 2, some 0, some 2, some 1, some 2, some 1, some 3, some 3, some 0, some 2, some 3, some 3, some 0, some 0, some 2, some 0, some 2, some 1, some 3, some 3, some 0, some 0, some 3, some 3, some 0, some 2, some 2, some 0, some 2, some 0, some 3, some 3, some 0, some 1, some 3, some 3, some 0, some 2, some 3],
   [some 2, some 1, some 3, some 3, some 0, some 2, some 2, some 1, some 1, some 0, some 2, some 2, some 1, some 0, some 3, some 3, some 0, some 2, some 2, some 1, some 1, some 2, some 1, some 1, some 2, some 0, some 3, some 3, some 0, some 1, some 3, some 3, some 0, some 0, some 2, some 1, some 1, some 0, some 3, some 3, some 0, some 0, some 3, some 0, some 0, some 2, some 2, some 1, some 1, some 2, some 3, some 3, some 0, some 0, some 3, some 3, none],
   [some 2, some 1, some 2, some 1, some 3, some 3, some 0, some 0, some 2, some 2, some 1, some 1, some 2, some 1, some 2, some 1, some 3, some 3, some 0, some 2, some 1, some 2, some 1, some 0, some 2, some 1, some 1, some 0, some 3, some 3, some 0, some 1, some 3, some 3, some 0, some 0, some 2, some 2, some 1, some 0, some 3, some 3, some 0, some 1, some 3, some 3, some 0, some 0, some 1, some 2, some 1, some 0, some 3, some 3, some 0, some 0, some 2],
   [some 1, some 2, some 1, some 0, some 2, some 1, some 3, some 3, some 0, some 2, some 2, some 1, some 2, some 1, some 1, some 2, some 1, some 1, some 3, some 3, some 0, some 0, some 2, some 2, some 1, some 2, some 1, some 2, some 1, some 2, some 3, some 3, some 0, some 1, some 3, some 3, some 0, some 0, some 2, some 1, some 2, some 0, some 3, some 3, some 0, some 1, some 3, some 3, some 0, some 0, some 2, some 2, some 1, some 0, some 3, some 3, some 0],
   [some 1, some 0, some 2, some 2, some 1, some 1, some 1, some 2, some 3, some 3, some 0, some 2, some 1, some 2, some 1, some 1, some 2, some 0, some 1, some 2, some 3, some 3, some 0, some 2, some 1, some 1, some 2, some 1, some 1, some 0, some 2, some 2, some 3, some 3, some 0, some 0, some 3, some 3, some 0, some 2, some 1, some 2, some 1, some 1, some 3, some 3, some 0, some 2, some 3, some 3, some 0, some 0, some 1, some 1, some 2, some 0, some 1],
   [some 0, some 2, some 1, some 1, some 1, some 2, some 1, some 2, some 1, some 1, some 3, some 3, some 0, some 2, some 2, some 0, some 1, some 2, some 1, some 1, some 2, some 1, some 3, some 3, some 0, some 2, some 2, some 1, some 0, some 0, some 1, some 1, some 1, some 2, some 3, some 3, some 0, some 1, some 3, some 3, some 0, some 2, some 2, some 0, some 1, some 2, some 3, some 3, some 0, some 0, some 3, some 3, some 0, some 2, some 2, some 1, some 0]],
   [[11, 8, 16, 6], [10, 13, 13, 5], [10, 15, 13, 4], [8, 15, 15, 4], [8, 18, 15, 4], [9, 17, 15, 4]],
   [1, 1, 1, 1, 1, 1, 1, 1, 1, 1, 1, 1, 1, 1, 1, 1, 1, 1, 1, 1, 1, 1, 1, 1, 1, 1, 1, 1, 1, 1, 1, 1, 1, 1, 1, 1, 1, 1, 1, 1, 1, 1, 1, 1, 1, 1, 1, 1, 1, 1, 1, 1, 1, 1, 1, 1, 1]⟩

def c4G4i : GenState :=
  ⟨[[some 3, some 3, some 0, some 2, some 2, some 0, some 2, some 1, some 2, some 1, some 1, some 0, some 3, some 3, some 0, some 2, some 2, some 1, some 2, some 0, some 2, some 1, some 2, some 1, some 3, some 3, some 0, some 2, some 3, some 3, some 0, some 0, some 2, some 0, some 2, some 1, some 3, some 3, some 0, some 0, some 3, some 3, some 0, some 2, some 2, some 0, some 2, some 0, some 3, some 3, some 0, some 1, some 3, some 3, some 0, some 2, some 3],
   [some 2, some 1, some 3, some 3, some 0, some 2, some 2, some 1, some 1, some 0, some 2, some 2, some 1, some 0, some 3, some 3, some 0, some 2, some 2, some 1, some 1, some 2, some 1, some 1, some 2, some 0, some 3, some 3, some 0, some 1, some 3, some 3, some 0, some 0, some 2, some 1, some 1, some 0, some 3, some 3, some 0, some 0, some 3, some 0, some 0, some 2, some 2, some 1, some 1, some 2, some 3, some 3, some 0, some 0, some 3, some 3, none],
   [some 2, some 1, some 2, some 1, some 3, some 3, some 0, some 0, some 2, some 2, some 1, some 1, some 2, some 1, some 2, some 1, some 3, some 3, some 0, some 2, some 1, some 2, some 1, some 0, some 2, some 1, some 1, some 0, some 3, some 3, some 0, some 1, some 3, some 3, some 0, some 0, some 2, some 2, some 1, some 0, some 3, some 3, some 0, some 1, some 3, some 3, some 0, some 0, some 1, some 2, some 1, some 0, some 3, some 3, some 0, some 0, some 2],
   [some 1, some 2, some 1, some 0, some 2, some 1, some 3, some 3, some 0, some 2, some 2, some 1, some 2, some 1, some 1, some 2, some 1, some 1, some 3, some 3, some 0, some 0, some 2, some 2, some 1, some 2, some 1, some 2, some 1, some 2, some 3, some 3, some 0, some 1, some 3, some 3, some 0, some 0, some 2, some 1, some 2, some 0, some 3, some 3, some 0, some 1, some 3, some 3, some 0, some 0, some 2, some 2, some 1, some 0, some 3, some 3, some 0],
   [some 1, some 0, some 2, some 2, some 1, some 1, some 1, some 2, some 3, some 3, some 0, some 2, some 1, some 2, some 1, some 1, some 2, some 0, some 1, some 2, some 3, some 3, some 0, some 2, some 1, some 1, some 2, some 1, some 1, some 0, some 2, some 2, some 3, some 3, some 0, some 0, some 3, some 3, some 0, some 2, some 1, some 2, some 1, some 1, some 3, some 3, some 0, some 2, some 3, some 3, some 0, some 0, some 1, some 1, some 2, some 0, some 1],
   [some 0, some 2, some 1, some 1, some 1, some 2, some 1, some 2, some 1, some 1, some 3, some 3, some 0, some 2, some 2, some 0, some 1, some 2, some 1, some 1, some 2, some 1, some 3, some 3, some 0, some 2, some 2, some 1, some 0, some 0, some 1, some 1, some 1, some 2, some 3, some 3, some 0, some 1, some 3, some 3, some 0, some 2, some 2, some 0, some 1, some 2, some 3, some 3, some 0, some 0, some 3, some 3, some 0, some 2, some 2, some 1, some 0]],
   [[16, 8, 16, 17], [15, 13, 13, 15], [15, 15, 13, 14], [13, 15, 15, 14], [12, 18, 15, 12], [13, 17, 15, 12]],
   [1, 1, 1, 1, 1, 1, 1, 1, 1, 1, 1, 1, 1, 1, 1, 1, 1, 1, 1, 1, 1, 1, 1, 1, 1, 1, 1, 1, 1, 1, 1, 1, 1, 1, 1, 1, 1, 1, 1, 1, 1, 1, 1, 1, 1, 1, 1, 1, 1, 1, 1, 1, 1, 1, 1, 1, 1]⟩

def c4P4a : GenState :=
  ⟨[[some 3, some 3, some 0, some 2, some 2, some 0, some 2, some 1, some 2, some 1, some 1, some 0, some 3, some 3, some 0, some 2, some 2, some 1, some 2, some 0, some 2, some 1, some 2, some 1, some 3, some 3, some 0, some 2, some 1, some 1, some 0, some 0, some 2, some 0, some 2, some 1, some 3, some 3, some 0, some 0, some 3, some 3, some 0, some 2, some 2, some 0, some 2, some 0, some 3, some 3, some 0, some 1, some 3, some 3, some 0, some 2, some 3],
   [some 2, some 1, some 3, some 3, some 0, some 2, some 2, some 1, some 1, some 0, some 2, some 2, some 1, some 0, some 3, some 3, some 0, some 2, some 2, some 1, some 1, some 2, some 1, some 1, some 2, some 0, some 3, some 3, some 0, some 1, some 1, some 2, some 0, some 0, some 2, some 1, some 1, some 0, some 3, some 3, some 0, some 0, some 3, some 0, some 0, some 2, some 2, some 1, some 1, some 2, some 3, some 3, some 0, some 0, some 3, some 3, none],
   [some 2, some 1, some 2, some 1, some 3, some 3, some 0, some 0, some 2, some 2, some 1, some 1, some 2, some 1, some 2, some 1, some 3, some 3, some 0, some 2, some 1, some 2, some 1, some 0, some 2, some 1, some 1, some 0, some 3, some 3, some 0, some 1, some 3, some 3, some 0, some 0, some 2, some 2, some 1, some 0, some 3, some 3, some 0, some 1, some 3, some 3, some 0, some 0, some 1, some 2, some 1, some 0, some 3, some 3, some 0, some 0, some 2],
   [some 1, some 2, some 1, some 0, some 2, some 1, some 3, some 3, some 0, some 2, some 2, some 1, some 2, some 1, some 1, some 2, some 1, some 1, some 3, some 3, some 0, some 0, some 2, some 2, some 1, some 2, some 1, some 2, some 2, some 2, some 3, some 3, some 0, some 1, some 3, some 3, some 0, some 0, some 2, some 1, some 2, some 0, some 3, some 3, some 0, some 1, some 3, some 3, some 0, some 0, some 2, some 2, some 1, some 0, some 3, some 3, some 0],
   [some 1, some 0, some 2, some 2, some 1, some 1, some 1, some 2, some 3, some 3, some 0, some 2, some 1, some 2, some 1, some 1, some 2, some 0, some 1, some 2, some 3, some 3, some 0, some 2, some 1, some 1, some 2, some 1, some 2, some 0, some 2, some 2, some 3, some 3, some 0, some 0, some 3, some 3, some 0, some 2, some 1, some 2, some 1, some 1, some 3, some 3, some 0, some 2, some 3, some 3, some 0, some 0, some 1, some 1, some 2, some 0, some 1],
   [some 0, some 2, some 1, some 1, some 1, some 2, some 1, some 2, some 1, some 1, some 3, some 3, some 0, some 2, some 2, some 0, some 1, some 2, some 1, some 1, some 2, some 1, some 3, some 3, some 0, some 2, some 2, some 1, some 0, some 0, some 1, some 1, some 1, some 2, some 3, some 3, some 0, some 1, some 3, some 3, some 0, some 2, some 2, some 0, some 1, some 2, some 3, some 3, some 0, some 0, some 3, some 3, some 0, some 2, some 2, some 1, some 0]],
   [[16, 10, 16, 15], [15, 14, 14, 13], [15, 15, 13, 14], [13, 14, 16, 14], [12, 17, 16, 12], [13, 17, 15, 12]],
   [1, 1, 1, 1, 1, 1, 1, 1, 1, 1, 1, 1, 1, 1, 1, 1, 1, 1, 1, 1, 1, 1, 1, 1, 1, 1, 1, 1, 1, 1, 1, 1, 1, 1, 1, 1, 1, 1, 1, 1, 1, 1, 1, 1, 1, 1, 1, 1, 1, 1, 1, 1, 1, 1, 1, 1, 1]⟩

def c4P4b : GenState :=
  ⟨[[some 3, some 3, some 0, some 2, some 2, some 0, some 2, some 1, some 2, some 1, some 1, some 0, some 3, some 3, some 0, some 2, some 2, some 1, some 2, some 0, some 2, some 1, some 2, some 1, some 3, some 3, some 0, some 2, some 1, some 1, some 0, some 0, some 2, some 0, some 2, some 2, some 1, some 1, some 0, some 0, some 3, some 3, some 0, some 2, some 2, some 0, some 2, some 0, some 3, some 3, some 0, some 1, some 3, some 3, some 0, some 2, some 3],
   [some 2, some 1, some 3, some 3, some 0, some 2, some 2, some 1, some 1, some 0, some 2, some 2, some 1, some 0, some 3, some 3, some 0, some 2, some 2, some 1, some 1, some 2, some 1, some 1, some 2, some 0, some 3, some 3, some 0, some 1, some 1, some 2, some 0, some 0, some 2, some 2, some 1, some 0, some 1, some 1, some 0, some 0, some 3, some 0, some 0, some 2, some 2, some 1, some 1, some 2, some 3, some 3, some 0, some 0, some 3, some 3, none],
   [some 2, some 1, some 2, some 1, some 3, some 3, some 0, some 0, some 2, some 2, some 1, some 1, some 2, some 1, some 2, some 1, some 3, some 3, some 0, some 2, some 1, some 2, some 1, some 0, some 2, some 1, some 1, some 0, some 3, some 3, some 0, some 1, some 1, some 1, some 0, some 0, some 2, some 2, some 1, some 0, some 3, some 3, some 0, some 1, some 3, some 3, some 0, some 0, some 1, some 2, some 1, some 0, some 3, some 3, some 0, some 0, some 2],
   [some 1, some 2, some 1, some 0, some 2, some 1, some 3, some 3, some 0, some 2, some 2, some 1, some 2, some 1, some 1, some 2, some 1, some 1, some 3, some 3, some 0, some 0, some 2, some 2, some 1, some 2, some 1, some 2, some 2, some 2, some 3, some 3, some 0, some 1, some 1, some 1, some 0, some 0, some 2, some 1, some 2, some 0, some 3, some 3, some 0, some 1, some 3, some 3, some 0, some 0, some 2, some 2, some 1, some 0, some 3, some 3, some 0],
   [some 1, some 0, some 2, some 2, some 1, some 1, some 1, some 2, some 3, some 3, some 0, some 2, some 1, some 2, some 1, some 1, some 2, some 0, some 1, some 2, some 3, some 3, some 0, some 2, some 1, some 1, some 2, some 1, some 2, some 0, some 2, some 2, some 3, some 3, some 0, some 0, some 3, some 3, some 0, some 2, some 1, some 2, some 1, some 1, some 3, some 3, some 0, some 2, some 3, some 3, some 0, some 0, some 1, some 1, some 2, some 0, some 1],
   [some 0, some 2, some 1, some 1, some 1, some 2, some 1, some 2, some 1, some 1, some 3, some 3, some 0, some 2, some 2, some 0, some 1, some 2, some 1, some 1, some 2, some 1, some 3, some 3, some 0, some 2, some 2, some 1, some 0, some 0, some 1, some 1, some 1, some 2, some 3, some 3, some 0, some 1, some 3, some 3, some 0, some 2, some 2, some 0, some 1, some 2, some 3, some 3, some 0, some 0, some 3, some 3, some 0, some 2, some 2, some 1, some 0]],
   [[16, 11, 17, 13], [15, 15, 15, 11], [15, 17, 13, 12], [13, 16, 16, 12], [12, 17, 16, 12], [13, 17, 15, 12]],
   [1, 1, 1, 1, 1, 1, 1, 1, 1, 1, 1, 1, 1, 1, 1, 1, 1, 1, 1, 1, 1, 1, 1, 1, 1, 1, 1, 1, 1, 1, 1, 1, 1, 1, 1, 1, 1, 1, 1, 1, 1, 1, 1, 1, 1, 1, 1, 1, 1, 1, 1, 1, 1, 1, 1, 1, 1]⟩

def c4P4c : GenState :=
  ⟨[[some 3, some 3, some 0, some 2, some 2, some 0, some 2, some 1, some 2, some 1, some 1, some 0, some 3, some 3, some 0, some 2, some 2, some 1, some 2, some 0, some 2, some 1, some 2, some 1, some 3, some 3, some 0, some 2, some 1, some 1, some 0, some 0, some 2, some 0, some 2, some 2, some 1, some 1, some 0, some 0, some 1, some 1, some 0, some 2, some 2, some 0, some 2, some 0, some 3, some 3, some 0, some 1, some 3, some 3, some 0, some 2, some 3],
   [some 2, some 1, some 3, some 3, some 0, some 2, some 2, some 1, some 1, some 0, some 2, some 2, some 1, some 0, some 3, some 3, some 0, some 2, some 2, some 1, some 1, some 2, some 1, some 1, some 2, some 0, some 3, some 3, some 0, some 1, some 1, some 2, some 0, some 0, some 2, some 2, some 1, some 0, some 1, some 1, some 0, some 0, some 3, some 0, some 0, some 2, some 2, some 1, some 1, some 2, some 3, some 3, some 0, some 0, some 3, some 3, none],
   [some 2, some 1, some 2, some 1, some 3, some 3, some 0, some 0, some 2, some 2, some 1, some 1, some 2, some 1, some 2, some 1, some 3, some 3, some 0, some 2, some 1, some 2, some 1, some 0, some 2, some 1, some 1, some 0, some 3, some 3, some 0, some 1, some 1, some 1, some 0, some 0, some 2, some 2, some 1, some 0, some 3, some 3, some 0, some 1, some 1, some 1, some 0, some 0, some 1, some 2, some 1, some 0, some 3, some 3, some 0, some 0, some 2],
   [some 1, some 2, some 1, some 0, some 2, some 1, some 3, some 3, some 0, some 2, some 2, some 1, some 2, some 1, some 1, some 2, some 1, some 1, some 3, some 3, some 0, some 0, some 2, some 2, some 1, some 2, some 1, some 2, some 2, some 2, some 3, some 3, some 0, some 1, some 1, some 1, some 0, some 0, some 2, some 1, some 2, some 0, some 1, some 3, some 0, some 1, some 3, some 3, some 0, some 0, some 2, some 2, some 1, some 0, some 3, some 3, some 0],
   [some 1, some 0, some 2, some 2, some 1, some 1, some 1, some 2, some 3, some 3, some 0, some 2, some 1, some 2, some 1, some 1, some 2, some 0, some 1, some 2, some 3, some 3, some 0, some 2, some 1, some 1, some 2, some 1, some 2, some 0, some 2, some 2, some 3, some 3, some 0, some 0, some 3, some 3, some 0, some 2, some 1, some 2, some 1, some 1, some 3, some 3, some 0, some 2, some 3, some 3, some 0, some 0, some 1, some 1, some 2, some 0, some 1],
   [some 0, some 2, some 1, some 1, some 1, some 2, some 1, some 2, some 1, some 1, some 3, some 3, some 0, some 2, some 2, some 0, some 1, some 2, some 1, some 1, some 2, some 1, some 3, some 3, some 0, some 2, some 2, some 1, some 0, some 0, some 1, some 1, some 1, some 2, some 3, some 3, some 0, some 1, some 3, some 3, some 0, some 2, some 2, some 0, some 1, some 2, some 1, some 1, some 0, some 0, some 3, some 3, some 0, some 2, some 2, some 1, some 0]],
   [[16, 13, 17, 11], [15, 15, 15, 11], [15, 19, 13, 10], [13, 17, 16, 11], [12, 17, 16, 12], [13, 19, 15, 10]],
   [1, 1, 1, 1, 1, 1, 1, 1, 1, 1, 1, 1, 1, 1, 1, 1, 1, 1, 1, 1, 1, 1, 1, 1, 1, 1, 1, 1, 1, 1, 1, 1, 1, 1, 1, 1, 1, 1, 1, 1, 1, 1, 1, 1, 1, 1, 1, 1, 1, 1, 1, 1, 1, 1, 1, 1, 1]⟩

def c4G5 : GenState :=
  ⟨[[some 3, some 3, some 0, some 2, some 2, some 0, some 2, some 1, some 2, some 1, some 1, some 0, some 3, some 3, some 0, some 2, some 2, some 1, some 2, some 0, some 2, some 1, some 2, some 1, some 3, some 3, some 0, some 2, some 1, some 1, some 0, some 0, some 2, some 0, some 2, some 2, some 1, some 1, some 0, some 0, some 1, some 1, some 0, some 2, some 2, some 0, some 2, some 0, some 3, some 3, some 0, some 1, some 1, some 1, some 0, some 2, some 3],
   [some 2, some 1, some 3, some 3, some 0, some 2, some 2, some 1, some 1, some 0, some 2, some 2, some 1, some 0, some 3, some 3, some 0, some 2, some 2, some 1, some 1, some 2, some 1, some 1, some 2, some 0, some 3, some 3, some 0, some 1, some 1, some 2, some 0, some 0, some 2, some 2, some 1, some 0, some 1, some 1, some 0, some 0, some 3, some 0, some 0, some 2, some 2, some 1, some 2, some 2, some 1, some 1, some 0, some 0, some 3, some 3, none],
   [some 2, some 1, some 2, some 1, some 3, some 3, some 0, some 0, some 2, some 2, some 1, some 1, some 2, some 1, some 2, some 1, some 3, some 3, some 0, some 2, some 1, some 2, some 1, some 0, some 2, some 1, some 1, some 0, some 3, some 3, some 0, some 1, some 1, some 1, some 0, some 0, some 2, some 2, some 1, some 0, some 3, some 3, some 0, some 1, some 1, some 1, some 0, some 0, some 2, some 2, some 1, some 0, some 3, some 3, some 0, some 0, some 2],
   [some 1, some 2, some 1, some 0, some 2, some 1, some 3, some 3, some 0, some 2, some 2, some 1, some 2, some 1, some 1, some 2, some 1, some 1, some 3, some 3, some 0, some 0, some 2, some 2, some 1, some 2, some 1, some 2, some 2, some 2, some 3, some 3, some 0, some 1, some 1, some 1, some 0, some 0, some 2, some 1, some 2, some 0, some 1, some 3, some 0, some 1, some 3, some 3, some 0, some 0, some 2, some 2, some 2, some 0, some 1, some 1, some 0],
   [some 1, some 0, some 2, some 2, some 1, some 1, some 1, some 2, some 3, some 3, some 0, some 2, some 1, some 2, some 1, some 1, some 2, some 0, some 1, some 2, some 3, some 3, some 0, some 2, some 1, some 1, some 2, some 1, some 2, some 0, some 2, some 2, some 3, some 3, some 0, some 0, some 3, some 3, some 0, some 2, some 1, some 2, some 1, some 1, some 3, some 3, some 0, some 2, some 1, some 1, some 0, some 0, some 2, some 1, some 2, some 0, some 1],
   [some 0, some 2, some 1, some 1, some 1, some 2, some 1, some 2, some 1, some 1, some 3, some 3, some 0, some 2, some 2, some 0, some 1, some 2, some 1, some 1, some 2, some 1, some 3, some 3, some 0, some 2, some 2, some 1, some 0, some 0, some 1, some 1, some 1, some 2, some 3, some 3, some 0, some 1, some 3, some 3, some 0, some 2, some 2, some 0, some 1, some 2, some 1, some 1, some 0, some 0, some 3, some 3, some 0, some 2, some 2, some 1, some 0]],
   [[16, 15, 17, 9], [15, 16, 16, 9], [15, 18, 14, 10], [13, 18, 17, 9], [12, 18, 17, 10], [13, 19, 15, 10]],
   [1, 1, 1, 1, 1, 1, 1, 1, 1, 1, 1, 1, 1, 1, 1, 1, 1, 1, 1, 1, 1, 1, 1, 1, 1, 1, 1, 1, 1, 1, 1, 1, 1, 1, 1, 1, 1, 1, 1, 1, 1, 1, 1, 1, 1, 1, 1, 1, 1, 1, 1, 1, 1, 1, 1, 1, 1]⟩

/-- The final matrix of `generate_optimized_shifts headRevRand 6 57`. -/
def c4M9 : ShiftMatrix := c4G5.shifts

/-! # Theorems -/

/-! ## List plumbing shared by several proofs -/

theorem take_drop_succ (l : Row) (i k : Nat) (h : i < l.length) :
    (l.drop i).take (k + 1) = l.getD i none :: (l.drop (i + 1)).take k := by
  rw [List.drop_eq_getElem_cons h, List.take_cons (by omega : 0 < k + 1),
    List.getD_eq_getElem l none h]
  simp

theorem pySlice_three (l : Row) (d : Nat) (h3 : 3 ≤ d) (hlen : d ≤ l.length) :
    pySlice l (d - 3) d =
      [l.getD (d - 3) none, l.getD (d - 2) none, l.getD (d - 1) none] := by
  unfold pySlice
  have e1 : d - (d - 3) = 3 := by omega
  have l1 : d - 3 < l.length := by omega
  have l2 : d - 2 < l.length := by omega
  have l3 : d - 1 < l.length := by omega
  rw [e1, take_drop_succ l (d - 3) 2 l1]
  rw [show d - 3 + 1 = d - 2 by omega, take_drop_succ l (d - 2) 1 l2]
  rw [show d - 2 + 1 = d - 1 by omega, take_drop_succ l (d - 1) 0 l3]
  simp

theorem pySlice_four (l : Row) (d : Nat) (h4 : 4 ≤ d) (hlen : d ≤ l.length) :
    pySlice l (d - 4) d =
      [l.getD (d - 4) none, l.getD (d - 3) none, l.getD (d - 2) none, l.getD (d - 1) none] := by
  unfold pySlice
  have e1 : d - (d - 4) = 4 := by omega
  have l1 : d - 4 < l.length := by omega
  have l2 : d - 3 < l.length := by omega
  have l3 : d - 2 < l.length := by omega
  have l4 : d - 1 < l.length := by omega
  rw [e1, take_drop_succ l (d - 4) 3 l1]
  rw [show d - 4 + 1 = d - 3 by omega, take_drop_succ l (d - 3) 2 l2]
  rw [show d - 3 + 1 = d - 2 by omega, take_drop_succ l (d - 2) 1 l3]
  rw [show d - 2 + 1 = d - 1 by omega, take_drop_succ l (d - 1) 0 l4]
  simp

theorem optClassify (o : Option Nat) : o = some 3 ∨ o = some 2 ∨ (o ≠ some 3 ∧ o ≠ some 2) := by
  rcases o with _ | v
  · exact Or.inr (Or.inr (by simp))
  · by_cases h3 : v = 3
    · exact Or.inl (by rw [h3])
    · by_cases h2 : v = 2
      · exact Or.inr (Or.inl (by rw [h2]))
      · exact Or.inr (Or.inr ⟨by simp [h3], by simp [h2]⟩)

theorem natClassify (s : Nat) : s = 0 ∨ s = 1 ∨ s = 3 ∨ (s ≠ 0 ∧ s ≠ 1 ∧ s ≠ 3) := by omega

set_option maxHeartbeats 2000000 in
/-- C1: the legality predicate, restricted to in-bounds days, decides exactly
the rule list of the claim. -/
theorem c1_legality_matches_claim (row : Row) (day s : Nat) (h : day < row.length) :
    is_shift_viable row day (some s) = viable_claim row day s := by
  rcases Nat.lt_or_ge day 4 with hd | hd
  · have hnb : ¬(day ≥ row.length) := by omega
    interval_cases day
    · simp [is_shift_viable, viable_claim, prevDay, hnb]
    · simp only [is_shift_viable, viable_claim, prevDay, hnb]
      simp only [List.getD_eq_getElem?_getD]
      norm_num
      generalize (row[0]?).getD none = a1
      rcases natClassify s with rfl | rfl | rfl | ⟨hs0, hs1, hs3⟩ <;>
        rcases optClassify a1 with rfl | rfl | ⟨h13, h12⟩ <;> simp_all
    · simp only [is_shift_viable, viable_claim, prevDay, hnb]
      simp only [List.getD_eq_getElem?_getD]
      norm_num
      generalize (row[1]?).getD none = a1
      generalize (row[0]?).getD none = a2
      rcases natClassify s with rfl | rfl | rfl | ⟨hs0, hs1, hs3⟩ <;>
        rcases optClassify a1 with rfl | rfl | ⟨h13, h12⟩ <;>
          rcases optClassify a2 with rfl | rfl | ⟨h23, h22⟩ <;> simp_all
    · simp only [is_shift_viable, viable_claim, prevDay, hnb]
      rw [pySlice_three row 3 (by norm_num) (by omega)]
      simp only [List.getD_eq_getElem?_getD]
      norm_num
      generalize (row[2]?).getD none = a1
      generalize (row[1]?).getD none = a2
      generalize (row[0]?).getD none = a3
      rcases natClassify s with rfl | rfl | rfl | ⟨hs0, hs1, hs3⟩ <;>
        rcases optClassify a1 with rfl | rfl | ⟨h13, h12⟩ <;>
          rcases optClassify a2 with rfl | rfl | ⟨h23, h22⟩ <;>
            rcases optClassify a3 with rfl | rfl | ⟨h33, h32⟩ <;> simp_all
  · have h1 : day ≥ 1 := by omega
    have h2 : day ≥ 2 := by omega
    have h3 : day ≥ 3 := by omega
    have h4 : day ≥ 4 := by omega
    have hnb : ¬(day ≥ row.length) := by omega
    simp only [is_shift_viable, viable_claim, prevDay, if_pos h1, if_pos h2, if_pos h3,
      if_pos h4, if_neg hnb, if_pos (show day > 0 by omega), if_pos (show day > 1 by omega)]
    rw [pySlice_three row day h3 (le_of_lt h), pySlice_four row day h4 (le_of_lt h)]
    simp only [List.cons.injEq, and_true]
    generalize row.getD (day - 1) none = a1
    generalize row.getD (day - 2) none = a2
    generalize row.getD (day - 3) none = a3
    generalize row.getD (day - 4) none = a4
    rcases natClassify s with rfl | rfl | rfl | ⟨hs0, hs1, hs3⟩ <;>
      rcases optClassify a1 with rfl | rfl | ⟨h13, h12⟩ <;>
        rcases optClassify a2 with rfl | rfl | ⟨h23, h22⟩ <;>
          rcases optClassify a3 with rfl | rfl | ⟨h33, h32⟩ <;>
            rcases optClassify a4 with rfl | rfl | ⟨h43, h42⟩ <;>
              simp_all

theorem getD_of_length_le (l : Row) (n : Nat) (h : l.length ≤ n) : l.getD n none = none := by
  rw [List.getD_eq_getElem?_getD, List.getElem?_eq_none h]
  rfl

theorem mget_some_bounds {m : ShiftMatrix} {e d v : Nat} (h : mget m e d = some v) :
    e < m.length ∧ d < (mrow m e).length := by
  constructor
  · by_contra he
    push_neg at he
    have hrow : mrow m e = [] := by
      rw [mrow, List.getD_eq_getElem?_getD, List.getElem?_eq_none he]
      rfl
    rw [mget, hrow] at h
    simp [List.getD] at h
  · by_contra hd
    push_neg at hd
    rw [mget, getD_of_length_le _ _ hd] at h
    exact Option.noConfusion h

theorem mrow_mset_self {m : ShiftMatrix} {e : Nat} (he : e < m.length) (d : Nat)
    (v : Option Nat) : mrow (mset m e d v) e = (mrow m e).set d v := by
  rw [mrow, mset, List.getD_eq_getElem?_getD, List.getElem?_set_self he]
  rfl

theorem mget_mset_self {m : ShiftMatrix} {e d : Nat} (he : e < m.length)
    (hd : d < (mrow m e).length) (v : Option Nat) : mget (mset m e d v) e d = v := by
  rw [mget, mrow_mset_self he, List.getD_eq_getElem?_getD, List.getElem?_set_self hd]
  rfl

theorem mrow_mset_ne {m : ShiftMatrix} {e e' : Nat} (h : e' ≠ e) (d : Nat)
    (v : Option Nat) : mrow (mset m e d v) e' = mrow m e' := by
  rw [mrow, mrow, mset, List.getD_eq_getElem?_getD, List.getD_eq_getElem?_getD,
    List.getElem?_set_ne (fun hh => h hh.symm)]

theorem mget_mset_ne_emp {m : ShiftMatrix} {e e' : Nat} (h : e' ≠ e) (d d' : Nat)
    (v : Option Nat) : mget (mset m e d v) e' d' = mget m e' d' := by
  rw [mget, mrow_mset_ne h]
  rfl

theorem mget_mset_ne_day {m : ShiftMatrix} {d d' : Nat} (h : d' ≠ d) (e e' : Nat)
    (v : Option Nat) : mget (mset m e d v) e' d' = mget m e' d' := by
  by_cases he : e' = e
  · subst he
    by_cases hlen : e' < m.length
    · rw [mget, mrow_mset_self hlen, List.getD_eq_getElem?_getD,
        List.getElem?_set_ne (fun hh => h hh.symm), mget, List.getD_eq_getElem?_getD]
    · push_neg at hlen
      rw [mget, mget, mrow, mrow, mset, List.set_eq_of_length_le hlen]
  · exact mget_mset_ne_emp he d d' v

theorem mget_mset_cases (m : ShiftMatrix) (e d : Nat) (v : Option Nat) (e' d' : Nat) :
    mget (mset m e d v) e' d' = v ∨ mget (mset m e d v) e' d' = mget m e' d' := by
  by_cases he : e' = e
  · subst he
    by_cases hd : d' = d
    · subst hd
      by_cases hlen : e' < m.length
      · by_cases hrow : d' < (mrow m e').length
        · exact Or.inl (mget_mset_self hlen hrow v)
        · push_neg at hrow
          refine Or.inr ?_
          rw [mget, mrow_mset_self hlen, List.set_eq_of_length_le hrow]
          rfl
      · push_neg at hlen
        refine Or.inr ?_
        rw [mget, mget, mrow, mrow, mset, List.set_eq_of_length_le hlen]
    · exact Or.inr (mget_mset_ne_day hd e' e' v)
  · exact Or.inr (mget_mset_ne_emp he d d' v)

theorem insertLe_mem {le : α → α → Bool} {x y : α} {l : List α}
    (h : x ∈ insertLe le y l) : x = y ∨ x ∈ l := by
  induction l with
  | nil => simpa [insertLe] using h
  | cons z zs ih =>
    rw [insertLe] at h
    by_cases hc : le z y
    · rw [if_pos hc] at h
      rcases List.mem_cons.mp h with h1 | h2
      · exact Or.inr (by simp [h1])
      · rcases ih h2 with h3 | h4
        · exact Or.inl h3
        · exact Or.inr (List.mem_cons_of_mem _ h4)
    · rw [if_neg hc] at h
      rcases List.mem_cons.mp h with h1 | h2
      · exact Or.inl h1
      · exact Or.inr h2

theorem sortLe_mem_aux {le : α → α → Bool} {x : α} :
    ∀ (l acc : List α), x ∈ l.foldl (fun acc y => insertLe le y acc) acc →
      x ∈ acc ∨ x ∈ l := by
  intro l
  induction l with
  | nil => intro acc hh; exact Or.inl hh
  | cons z zs ih =>
    intro acc hh
    rcases ih (insertLe le z acc) hh with h1 | h2
    · rcases insertLe_mem h1 with h3 | h4
      · exact Or.inr (by simp [h3])
      · exact Or.inl h4
    · exact Or.inr (List.mem_cons_of_mem _ h2)

theorem sortLe_mem {le : α → α → Bool} {x : α} {l : List α}
    (h : x ∈ l.foldl (fun acc y => insertLe le y acc) []) : x ∈ l := by
  rcases sortLe_mem_aux l [] h with h1 | h2
  · exact absurd h1 (List.not_mem_nil x)
  · exact h2

theorem sortByKey_mem {key : α → List Int} {x : α} {l : List α}
    (h : x ∈ sortByKey key l) : x ∈ l := sortLe_mem h

theorem findFirst_mem {p : α → Bool} {l : List α} {x : α} (h : findFirst p l = some x) :
    x ∈ l ∧ p x = true :=
  ⟨List.mem_of_find?_eq_some h, List.find?_some h⟩

/-- C2: generation refuses rosters below 6 before touching any state, and a
roster of at least 6 can never produce the insufficient-roster error. -/
theorem c2_insufficient_roster (r : RandSrc) (n total_days : Nat) :
    (n < 6 → generate_optimized_shifts r n total_days = .error .insufficientRoster) ∧
    (6 ≤ n → generate_optimized_shifts r n total_days ≠ .error .insufficientRoster) := by
  unfold generate_optimized_shifts
  constructor
  · intro hn
    rw [if_pos (by simpa [TARGET_SHIFTS_PER_DAY] using hn)]
  · intro hn
    rw [if_neg (by simp [TARGET_SHIFTS_PER_DAY]; omega)]
    try dsimp only
    split
    · simp
    · simp

/-- Witness for C2 at rosters of 5 and 6. -/
theorem c2_insufficient_roster_witness :
    generate_optimized_shifts triv 5 28 = .error .insufficientRoster ∧
    generate_optimized_shifts triv 6 1 ≠ .error .insufficientRoster :=
  ⟨(c2_insufficient_roster triv 5 28).1 (by norm_num),
   (c2_insufficient_roster triv 6 1).2 (by norm_num)⟩

theorem viable_off (row : Row) (day : Nat) : is_shift_viable row day (some 0) = true := by
  simp [is_shift_viable]

set_option maxRecDepth 10000 in
/-- C3 counterexample: a full generation run (roster 6, 5 days, a realizable
random behaviour) whose final matrix assigns employee 4 Night on day 3 and
Morning on day 4. -/
theorem c3_counterexample :
    generate_optimized_shifts lastRevRand 6 5 = .ok c3final ∧
    mget c3final 4 3 = some 3 ∧ mget c3final 4 4 = some 1 :=
  ⟨by rfl, by decide, by decide⟩

/-- C3 amended: Phase 5 does clear an `M`-directly-after-`N` cell whenever a
repair is available — Evening viable, or no Off recorded for the day yet.
(The counterexample run shows the cell surviving when neither holds.) -/
theorem c3_amended_phase5_repair (names : List Nat) (e : Nat) (g : GenState) (day : Nat)
    (hcur : mget g.shifts e day = some 1) (hprev : mget g.shifts e (day - 1) = some 3)
    (havail : is_shift_viable (mrow g.shifts e) day (some 2) = true ∨ oget g.offs day = 0) :
    mget (p5day names e g day).shifts e day ≠ some 1 := by
  obtain ⟨hbe, hbd⟩ := mget_some_bounds hcur
  unfold p5day
  rw [hcur, hprev]
  simp only [beq_self_eq_true, Bool.and_self, Bool.not_true, Bool.false_eq_true, if_false]
  by_cases hv : is_shift_viable (mrow g.shifts e) day (some 2) = true
  · rw [if_pos hv]
    have hcell : mget (mset g.shifts e day (some 2)) e day = some 2 :=
      mget_mset_self hbe hbd (some 2)
    by_cases hover : dayCount names (mset g.shifts e day (some 2)) day 2 >
        TARGET_SHIFTS_PER_DAY 2
    · rw [if_pos hover]
      by_cases hunder : dayCount names (mset g.shifts e day (some 2)) day 1 <
          TARGET_SHIFTS_PER_DAY 1
      · rw [if_pos hunder]
        split
        · next se hfind =>
          obtain ⟨hmem, _⟩ := findFirst_mem hfind
          have hmem2 := sortByKey_mem hmem
          have hprop := (List.mem_filter.mp hmem2).2
          have hne : se ≠ e := by
            intro hh
            subst hh
            simp at hprop
          show mget (mset (mset g.shifts e day (some 2)) se day (some 1)) e day ≠ some 1
          rw [mget_mset_ne_emp (Ne.symm hne), hcell]
          decide
        · rw [hcell]; decide
      · rw [if_neg hunder, hcell]; decide
    · rw [if_neg hover, hcell]; decide
  · rw [if_neg hv]
    rcases havail with hv2 | hoffs
    · exact absurd hv2 hv
    · rw [if_pos (by simp [viable_off, hoffs])]
      rw [mget_mset_self hbe hbd (some 0)]
      decide

/-- Witness for the amended C3 theorem: a 2-day row `[N, M]` with Evening
viable on day 1 is repaired. -/
theorem c3_amended_phase5_repair_witness :
    mget { shifts := [[some 3, some 1]], counts := [[0, 1, 0, 3]], offs := [0, 1] : GenState}.shifts 0 1 = some 1 ∧
    mget (p5day [0] 0 ⟨[[some 3, some 1]], [[0, 1, 0, 3]], [0, 1]⟩ 1).shifts 0 1 ≠ some 1 :=
  ⟨by decide, c3_amended_phase5_repair [0] 0 ⟨[[some 3, some 1]], [[0, 1, 0, 3]], [0, 1]⟩ 1
    (by decide) (by decide) (Or.inl (by decide))⟩

/-- C5: the Phase 4.6 tally update raises (KeyError) whenever the selected
conversion window holds an unset cell — here on a state whose employee 0
lacks a Night-Night block and whose first (and only) eligible window is
unset-unset.  The `1 if old1 is not None else 0` guard in the source shows
the intent was not to raise. -/
theorem c5_phase46_keyerror_on_unset_window :
    mget stNoneWin.shifts 0 0 = none ∧ mget stNoneWin.shifts 0 1 = none ∧
    hasNN stNoneWin 0 2 = false ∧ nnWindowOk stNoneWin 0 0 = true ∧
    phase46 (List.range 6) 2 stNoneWin = .error () :=
  ⟨by decide, by decide, by decide, by decide, by rfl⟩

/-- C9 counterexample: employee 0 lacks a Night-Night block and days (0, 1)
are both `Off` and both legal as Night, yet the Phase 4.6 pass converts
nothing — the window condition `in [None, 1, 2]` excludes `Off`. -/
theorem c9_counterexample :
    hasNN stOffOff 0 2 = false ∧
    mget stOffOff.shifts 0 0 = some 0 ∧ mget stOffOff.shifts 0 1 = some 0 ∧
    is_shift_viable (mrow stOffOff.shifts 0) 0 (some 3) = true ∧
    is_shift_viable (mrow stOffOff.shifts 0) 1 (some 3) = true ∧
    phase46 (List.range 6) 2 stOffOff = .ok stOffOff :=
  ⟨by decide, by decide, by decide, by decide, by decide, by rfl⟩

/-- C9 amended: the Night-Block Guarantor leaves employees with a block (or
with no eligible window) untouched; for an employee without a block it
converts the first window whose cells are Morning, Evening or unset (never
`Off`) and legal as Night — completing normally when both cells are set. -/
theorem c9_amended_night_block_guarantor (g : GenState) (e total_days : Nat) :
    (hasNN g e total_days = true → p46emp total_days g e = .ok g) ∧
    (hasNN g e total_days = false →
      findFirst (nnWindowOk g e) (List.range (total_days - 1)) = none →
      p46emp total_days g e = .ok g) ∧
    (∀ d o1 o2, hasNN g e total_days = false →
      findFirst (nnWindowOk g e) (List.range (total_days - 1)) = some d →
      mget g.shifts e d = some o1 → mget g.shifts e (d + 1) = some o2 →
      p46emp total_days g e = .ok ⟨mset (mset g.shifts e d (some 3)) e (d + 1) (some 3),
        cadd (cadd (cadd g.counts e o1 (-1)) e o2 (-1)) e 3 2, g.offs⟩) ∧
    (∀ d, nnWindowOk g e d = true →
      mget g.shifts e d ≠ some 0 ∧ mget g.shifts e (d + 1) ≠ some 0) := by
  refine ⟨?_, ?_, ?_, ?_⟩
  · intro h
    simp [p46emp, h]
  · intro h1 h2
    simp [p46emp, h1, h2]
  · intro d o1 o2 h1 h2 h3 h4
    unfold p46emp
    rw [h1, h2]
    simp only [Bool.false_eq_true, if_false]
    rw [h3, h4]
  · intro d h
    unfold nnWindowOk at h
    refine ⟨fun hc => ?_, fun hc => ?_⟩
    · rw [hc] at h
      simp at h
    · rw [hc] at h
      simp at h

/-- Witness for the amended C9 theorem: a Morning-Evening window is
converted to Night-Night. -/
theorem c9_amended_night_block_guarantor_witness :
    p46emp 2 ⟨[[some 1, some 2]], [[0, 1, 1, 0]], [0, 0]⟩ 0 =
      .ok ⟨mset (mset ([[some 1, some 2]] : ShiftMatrix) 0 0 (some 3)) 0 1 (some 3),
        cadd (cadd (cadd ([[0, 1, 1, 0]] : List (List Int)) 0 1 (-1)) 0 2 (-1)) 0 3 2, [0, 0]⟩ :=
  (c9_amended_night_block_guarantor ⟨[[some 1, some 2]], [[0, 1, 1, 0]], [0, 0]⟩ 0 2).2.2.1
    0 1 2 (by decide) (by decide) (by decide) (by decide)

/-- C8 counterexample: day 0 has Night count 0 (below the target of 1) and
Morning workers who could legally move to Night, yet a full balancing pass
changes nothing — the Balancer has no under-target branch for Night. -/
theorem c8_counterexample :
    dayCount (List.range 6) stNightZero.shifts 0 3 = 0 ∧
    mget stNightZero.shifts 0 0 = some 1 ∧
    is_shift_viable (mrow stNightZero.shifts 0) 0 (some 3) = true ∧
    balanceDay (List.range 6) stNightZero 0 = stNightZero :=
  ⟨by decide, by decide, by decide, by decide⟩

theorem bsetAsg_g (b : BalSt) (k : Nat) (l : List Nat) : (bsetAsg b k l).g = b.g := by
  unfold bsetAsg
  split
  · rfl
  · split <;> rfl

theorem balMove_night {b : BalSt} {emp day origin dest : Nat} (hdest : dest ≠ 3) {e d : Nat}
    (h : mget (balMove b emp day origin dest).g.shifts e d = some 3) :
    mget b.g.shifts e d = some 3 := by
  unfold balMove at h
  rw [bsetAsg_g, bsetAsg_g] at h
  rcases mget_mset_cases b.g.shifts emp day (some dest) e d with hc | hc
  · rw [hc] at h
    exact absurd (Option.some.inj h) hdest
  · rw [hc] at h
    exact h

theorem foldlB_night {α : Type} {f : (BalSt × Int) → α → (BalSt × Int) × Bool}
    (hf : ∀ s a e d, mget ((f s a).1.1.g.shifts) e d = some 3 →
      mget s.1.g.shifts e d = some 3) :
    ∀ (l : List α) (s : BalSt × Int) (e d : Nat),
      mget ((foldlB f s l).1.g.shifts) e d = some 3 → mget s.1.g.shifts e d = some 3 := by
  intro l
  induction l with
  | nil => intro s e d h; simpa [foldlB] using h
  | cons x xs ih =>
    intro s e d h
    rw [foldlB] at h
    by_cases hr : (f s x).2
    · rw [if_pos hr] at h
      exact hf s x e d (ih (f s x).1 e d h)
    · rw [if_neg hr] at h
      exact hf s x e d h

theorem balOver_night {day code : Nat} {b : BalSt} {e d : Nat}
    (h : mget (balOver day code b).g.shifts e d = some 3) : mget b.g.shifts e d = some 3 := by
  unfold balOver at h
  by_cases hc : bcd b code > (TARGET_SHIFTS_PER_DAY code : Int)
  · rw [if_pos hc] at h
    refine foldlB_night ?_ _ (b, 0) e d h
    intro s a e' d' hh
    by_cases h1 : s.2 ≥ bcd b code - (TARGET_SHIFTS_PER_DAY code : Int)
    · rw [if_pos h1] at hh
      exact hh
    · rw [if_neg h1] at hh
      by_cases h2 : is_shift_viable (mrow s.1.g.shifts a) day (some 1) = true
      · rw [if_pos h2] at hh
        exact balMove_night (by norm_num) hh
      · rw [if_neg h2] at hh
        exact hh
  · rw [if_neg hc] at h
    exact h

theorem balUnderE_night {day : Nat} {b : BalSt} {e d : Nat}
    (h : mget (balUnderE day b).g.shifts e d = some 3) : mget b.g.shifts e d = some 3 := by
  unfold balUnderE at h
  by_cases hc : bcd b 2 < (TARGET_SHIFTS_PER_DAY 2 : Int)
  · rw [if_pos hc] at h
    refine foldlB_night ?_ _ (b, 0) e d h
    intro s a e' d' hh
    by_cases h1 : s.2 ≥ (TARGET_SHIFTS_PER_DAY 2 : Int) - bcd b 2
    · rw [if_pos h1] at hh
      exact hh
    · rw [if_neg h1] at hh
      by_cases h2 : is_shift_viable (mrow s.1.g.shifts a.1) day (some 2) = true
      · rw [if_pos h2] at hh
        exact balMove_night (by norm_num) hh
      · rw [if_neg h2] at hh
        exact hh
  · rw [if_neg hc] at h
    exact h

theorem balanceIter_night {names : List Nat} {day : Nat} {g : GenState} {e d : Nat}
    (h : mget (balanceIter names day g).g.shifts e d = some 3) :
    mget g.shifts e d = some 3 := by
  unfold balanceIter at h
  have h1 := balOver_night h
  split at h1
  · exact balOver_night h1
  · exact balUnderE_night h1

theorem balanceDayGo_night {names : List Nat} {day : Nat} :
    ∀ (fuel : Nat) (g : GenState) (e d : Nat),
      mget (balanceDayGo names day fuel g).shifts e d = some 3 →
      mget g.shifts e d = some 3 := by
  intro fuel
  induction fuel with
  | zero => intro g e d h; simpa [balanceDayGo] using h
  | succ n ih =>
    intro g e d h
    rw [balanceDayGo] at h
    by_cases hc : (balanceIter names day g).changed
    · rw [if_pos hc] at h
      exact balanceIter_night (ih _ e d h)
    · rw [if_neg hc] at h
      exact balanceIter_night h

/-- C8 amended: the Balancer has over-target correction only for Night — no
balancing step ever moves an employee into Night; a day's Night deficit is
left to the presence pass. -/
theorem c8_amended_no_move_into_night (names : List Nat) (g : GenState) (day e d : Nat)
    (h : mget (balanceDay names g day).shifts e d = some 3) :
    mget g.shifts e d = some 3 :=
  balanceDayGo_night 7 g e d h

/-- Witness for the amended C8 theorem: a Night cell that survives a
balancing pass was there before it. -/
theorem c8_amended_no_move_into_night_witness :
    mget (balanceDay [0] ⟨[[some 3]], [[0, 0, 0, 1]], [0]⟩ 0).shifts 0 0 = some 3 ∧
    mget (⟨[[some 3]], [[0, 0, 0, 1]], [0]⟩ : GenState).shifts 0 0 = some 3 :=
  ⟨by decide, c8_amended_no_move_into_night [0] ⟨[[some 3]], [[0, 0, 0, 1]], [0]⟩ 0 0 0 (by decide)⟩

theorem adjust_loop_unchanged (dim : Nat) (base : Int) (emp : Nat) (newShifts : List Nat) :
    ∀ (days : List Nat) (k : Nat) (st : AdjustSt),
      (∀ i day, days.get? i = some day →
        1 ≤ day ∧ day ≤ dim ∧ ∃ rec, dbLookup st.db emp (base + day) = some rec ∧
          rec.shift ≤ 3 ∧ newShifts.get? (k + i) = some rec.shift) →
      ∃ last, (List.enumFrom k days).foldlM
          (fun st p => adjustStep dim base emp newShifts st p.1 p.2) st =
        .ok ⟨st.db, st.action, last⟩ := by
  intro days
  induction days with
  | nil => intro k st _; exact ⟨st.last, rfl⟩
  | cons day rest ih =>
    intro k st h
    obtain ⟨hd1, hd2, rec, hrec, hrs, hns⟩ := h 0 day rfl
    have hstep : adjustStep dim base emp newShifts st k day = .ok { st with last := some rec } := by
      unfold adjustStep
      rw [if_neg (show ¬((day < 1 || day > dim) = true) from by simp; omega)]
      rw [show newShifts.get? k = some rec.shift from by simpa using hns]
      try dsimp only
      rw [if_neg (show ¬((!(rec.shift == 0 || rec.shift == 1 || rec.shift == 2 ||
        rec.shift == 3)) = true) from by simp; omega)]
      try dsimp only
      rw [hrec]
      simp
    have hrest := ih (k + 1) { st with last := some rec } (by
      intro i d hi
      obtain ⟨a1, a2, rec2, b1, b2, b3⟩ := h (i + 1) d (by simpa using hi)
      exact ⟨a1, a2, rec2, b1, b2, by rw [show k + 1 + i = k + (i + 1) by omega]; exact b3⟩)
    obtain ⟨last, hlast⟩ := hrest
    refine ⟨last, ?_⟩
    rw [List.enumFrom]
    rw [List.foldlM_cons, hstep]
    simpa using hlast

/-- C10: when every requested shift equals the stored one, `adjust` touches
nothing and reports `"unchanged"` (in the source that run never calls
`session.commit()` and performs no `session.add` or attribute write). -/
theorem c10_adjust_idempotent (employees : List Nat) (dim : Nat) (base : Int) (db : Db)
    (emp : Nat) (days newShifts : List Nat) (hemp : emp ∈ employees)
    (h : ∀ i day, days.get? i = some day →
      1 ≤ day ∧ day ≤ dim ∧ ∃ rec, dbLookup db emp (base + day) = some rec ∧
        rec.shift ≤ 3 ∧ newShifts.get? i = some rec.shift) :
    adjust_shift employees dim base db emp days newShifts = .ok (db, "unchanged") := by
  unfold adjust_shift
  rw [if_neg (by simp [hemp])]
  obtain ⟨last, hlast⟩ := adjust_loop_unchanged dim base emp newShifts days 0
    ⟨db, "unchanged", none⟩ (by simpa using h)
  rw [show days.enum = List.enumFrom 0 days from rfl]
  rw [hlast]

/-- Witness for C10: re-writing the already-stored Morning on two days is a
no-op reported as unchanged. -/
theorem c10_adjust_idempotent_witness :
    adjust_shift [7] 28 100 [⟨7, 3, 1, 103⟩, ⟨7, 5, 2, 105⟩] 7 [3, 5] [1, 2] =
      .ok ([⟨7, 3, 1, 103⟩, ⟨7, 5, 2, 105⟩], "unchanged") :=
  c10_adjust_idempotent [7] 28 100 [⟨7, 3, 1, 103⟩, ⟨7, 5, 2, 105⟩] 7 [3, 5] [1, 2]
    (by decide)
    (by
      intro i day hi
      rcases i with _ | i
      · simp at hi
        subst hi
        exact ⟨by omega, by omega, ⟨7, 3, 1, 103⟩, by decide, by decide, rfl⟩
      · rcases i with _ | i
        · simp at hi
          subst hi
          exact ⟨by omega, by omega, ⟨7, 5, 2, 105⟩, by decide, by decide, rfl⟩
        · simp at hi)

theorem dbLookup_append_single (db : Db) (r : DbRec) (e : Nat) (d : Int)
    (h : dbLookup db e d = none) (he : r.emp = e) (hd : r.date = d) :
    dbLookup (db ++ [r]) e d = some r := by
  induction db with
  | nil => simp [dbLookup, he, hd]
  | cons a rest ih =>
    cases hpa : (a.emp == e && a.date == d) with
    | false =>
      have h' : dbLookup rest e d = none := by
        simpa [dbLookup, List.find?_cons, hpa] using h
      simpa [dbLookup, List.find?_cons, hpa] using ih h'
    | true =>
      exfalso
      simp [dbLookup, List.find?_cons, hpa] at h

theorem dbLookup_dbUpdate_self (db : Db) (e : Nat) (d : Int) (s : Nat) (rec : DbRec)
    (h : dbLookup db e d = some rec) :
    dbLookup (dbUpdate db e d s) e d = some { rec with shift := s } := by
  induction db with
  | nil => simp [dbLookup] at h
  | cons a rest ih =>
    cases hpa : (a.emp == e && a.date == d) with
    | true =>
      have ha : a = rec := by simpa [dbLookup, List.find?_cons, hpa] using h
      subst ha
      unfold dbUpdate
      simp [dbLookup, List.find?_cons, hpa]
    | false =>
      have h' : dbLookup rest e d = some rec := by
        simpa [dbLookup, List.find?_cons, hpa] using h
      have h2 : List.find? (fun r => r.emp == e && r.date == d) (dbUpdate rest e d s) =
          some { rec with shift := s } := ih h'
      unfold dbUpdate
      simp [dbLookup, List.find?_cons, hpa, h2]

theorem adjust_loop_ok (dim : Nat) (base : Int) (emp : Nat) (newShifts : List Nat) :
    ∀ (days : List Nat) (k : Nat) (st : AdjustSt),
      (∀ i day, days.get? i = some day →
        1 ≤ day ∧ day ≤ dim ∧ ∃ s, newShifts.get? (k + i) = some s ∧ s ≤ 3) →
      ∃ st', (List.enumFrom k days).foldlM
          (fun st p => adjustStep dim base emp newShifts st p.1 p.2) st = .ok st' := by
  intro days
  induction days with
  | nil => intro k st _; exact ⟨st, rfl⟩
  | cons day rest ih =>
    intro k st h
    obtain ⟨hd1, hd2, s, hs0, hs3⟩ := h 0 day rfl
    rw [Nat.add_zero] at hs0
    have hstep : ∃ st1, adjustStep dim base emp newShifts st k day = .ok st1 := by
      unfold adjustStep
      rw [if_neg (show ¬((day < 1 || day > dim) = true) from by simp; omega)]
      rw [hs0]
      try dsimp only
      rw [if_neg (show ¬((!(s == 0 || s == 1 || s == 2 || s == 3)) = true) from by
        simp; omega)]
      try dsimp only
      cases hL : dbLookup st.db emp (base + (day : Int)) with
      | none =>
        exact ⟨_, rfl⟩
      | some rec =>
        try dsimp only
        cases hss : (rec.shift != s) with
        | true => exact ⟨_, by rw [if_pos rfl]⟩
        | false => exact ⟨_, by rw [if_neg (by simp)]⟩
    obtain ⟨st1, hstep⟩ := hstep
    have hrest := ih (k + 1) st1 (by
      intro i d hi
      obtain ⟨a1, a2, s2, b1, b2⟩ := h (i + 1) d (by simpa using hi)
      exact ⟨a1, a2, s2, by rw [show k + 1 + i = k + (i + 1) by omega]; exact b1, b2⟩)
    obtain ⟨st', hst'⟩ := hrest
    refine ⟨st', ?_⟩
    rw [List.enumFrom]
    rw [List.foldlM_cons, hstep]
    simpa using hst'

/-- C6: `adjust_shift` never rejects a write on legality or balance grounds —
for an existing employee, in-range days and valid shift codes it always
succeeds (the M-after-N / N-after-N rejections are commented out in the
source and the imbalance recomputation only feeds a log line), and for a
single-day call the requested code is stored for that day regardless of what
the previous day holds. -/
theorem c6_adjust_never_rejects (employees : List Nat) (dim : Nat) (base : Int)
    (db : Db) (emp : Nat) (days newShifts : List Nat) (hemp : emp ∈ employees)
    (h : ∀ i day, days.get? i = some day →
      1 ≤ day ∧ day ≤ dim ∧ ∃ s, newShifts.get? i = some s ∧ s ≤ 3) :
    (∃ res, adjust_shift employees dim base db emp days newShifts = .ok res) ∧
    (∀ day ns, 1 ≤ day → day ≤ dim → ns ≤ 3 →
      ∃ db' act, adjust_shift employees dim base db emp [day] [ns] = .ok (db', act) ∧
        ∃ rec, dbLookup db' emp (base + day) = some rec ∧ rec.shift = ns) := by
  constructor
  · unfold adjust_shift
    rw [if_neg (by simp [hemp])]
    obtain ⟨st', hst'⟩ := adjust_loop_ok dim base emp newShifts days 0
      ⟨db, "unchanged", none⟩ (by simpa using h)
    refine ⟨(st'.db, st'.action), ?_⟩
    rw [show days.enum = List.enumFrom 0 days from rfl]
    rw [hst']
  · intro day ns hdd1 hdd2 hns
    unfold adjust_shift
    rw [if_neg (by simp [hemp])]
    cases hL : dbLookup db emp (base + (day : Int)) with
    | none =>
      have hstep : adjustStep dim base emp [ns] ⟨db, "unchanged", none⟩ 0 day =
          .ok ⟨db ++ [⟨emp, day, ns, base + day⟩], "created",
            some ⟨emp, day, ns, base + day⟩⟩ := by
        unfold adjustStep
        rw [if_neg (show ¬((day < 1 || day > dim) = true) from by simp; omega)]
        rw [show ([ns] : List Nat).get? 0 = some ns from rfl]
        try dsimp only
        rw [if_neg (show ¬((!(ns == 0 || ns == 1 || ns == 2 || ns == 3)) = true) from by
          simp; omega)]
        try dsimp only
        rw [hL]
      refine ⟨db ++ [⟨emp, day, ns, base + day⟩], "created", ?_,
        ⟨emp, day, ns, base + day⟩, ?_, rfl⟩
      · rw [show ([day] : List Nat).enum = List.enumFrom 0 [day] from rfl]
        rw [List.enumFrom, List.foldlM_cons, hstep]
        rfl
      · exact dbLookup_append_single db _ emp (base + day) hL rfl rfl
    | some rec =>
      by_cases hsr : rec.shift = ns
      · have hstep : adjustStep dim base emp [ns] ⟨db, "unchanged", none⟩ 0 day =
            .ok ⟨db, "unchanged", some rec⟩ := by
          unfold adjustStep
          rw [if_neg (show ¬((day < 1 || day > dim) = true) from by simp; omega)]
          rw [show ([ns] : List Nat).get? 0 = some ns from rfl]
          try dsimp only
          rw [if_neg (show ¬((!(ns == 0 || ns == 1 || ns == 2 || ns == 3)) = true) from by
            simp; omega)]
          try dsimp only
          rw [hL]
          try dsimp only
          rw [if_neg (by simp [hsr])]
        refine ⟨db, "unchanged", ?_, rec, hL, hsr⟩
        rw [show ([day] : List Nat).enum = List.enumFrom 0 [day] from rfl]
        rw [List.enumFrom, List.foldlM_cons, hstep]
        rfl
      · have hstep : adjustStep dim base emp [ns] ⟨db, "unchanged", none⟩ 0 day =
            .ok ⟨dbUpdate db emp (base + day) ns, "adjusted",
              some { rec with shift := ns }⟩ := by
          unfold adjustStep
          rw [if_neg (show ¬((day < 1 || day > dim) = true) from by simp; omega)]
          rw [show ([ns] : List Nat).get? 0 = some ns from rfl]
          try dsimp only
          rw [if_neg (show ¬((!(ns == 0 || ns == 1 || ns == 2 || ns == 3)) = true) from by
            simp; omega)]
          try dsimp only
          rw [hL]
          try dsimp only
          rw [if_pos (by simp [hsr])]
          rfl
        refine ⟨dbUpdate db emp (base + day) ns, "adjusted", ?_,
          { rec with shift := ns }, ?_, rfl⟩
        · rw [show ([day] : List Nat).enum = List.enumFrom 0 [day] from rfl]
          rw [List.enumFrom, List.foldlM_cons, hstep]
          rfl
        · exact dbLookup_dbUpdate_self db emp (base + day) ns rec hL

/-- Witness for C6: writing Morning on day 4 for an employee whose day 3 is
Night succeeds and stores the Morning. -/
theorem c6_adjust_never_rejects_witness :
    ∃ db' act, adjust_shift [7] 28 100 [⟨7, 3, 3, 103⟩] 7 [4] [1] = .ok (db', act) ∧
      ∃ rec, dbLookup db' 7 (100 + 4) = some rec ∧ rec.shift = 1 :=
  (c6_adjust_never_rejects [7] 28 100 [⟨7, 3, 3, 103⟩] 7 [4] [1] (by decide)
    (by
      intro i day hi
      rcases i with _ | i
      · simp at hi
        subst hi
        exact ⟨by omega, by omega, 1, rfl, by omega⟩
      · simp at hi)).2 4 1 (by omega) (by omega) (by omega)

set_option maxHeartbeats 1000000 in
/-- C7: given a valid day, distinct existing employees, `swap_shifts` rejects
with `InvalidTransition` exactly when the two current codes (defaulting to
Off) are equal or the swapped-in code would put a Morning or a Night right
after that employee's previous-day Night; and every rejection leaves the
store unchanged (all checks precede any mutation). -/
theorem c7_swap_rejects_exactly (employees : List Nat) (dim : Nat) (base : Int)
    (db : Db) (e1 e2 day : Nat) (hd1 : 1 ≤ day) (hd2 : day ≤ dim) (hne : e1 ≠ e2)
    (he1 : e1 ∈ employees) (he2 : e2 ∈ employees) :
    ((swap_shifts employees dim base db e1 e2 day).2 = some .invalidTransition ↔
      swap_reject_claim db base e1 e2 day = true) ∧
    (∀ err, (swap_shifts employees dim base db e1 e2 day).2 = some err →
      (swap_shifts employees dim base db e1 e2 day).1 = db) := by
  constructor
  · unfold swap_shifts swap_reject_claim
    rw [if_neg (show ¬((day < 1 || day > dim) = true) from by simp; omega)]
    rw [if_neg (show ¬((e1 == e2) = true) from by simp [hne])]
    rw [if_neg (by simp [he1, he2])]
    try dsimp only
    generalize ((dbLookup db e1 (base + (day : Int))).map (fun a => a.shift)).getD 0 = s1
    generalize ((dbLookup db e2 (base + (day : Int))).map (fun a => a.shift)).getD 0 = s2
    generalize (dbLookup db e1 (base + (day : Int) - 1)).map (fun a => a.shift) = p1
    generalize (dbLookup db e2 (base + (day : Int) - 1)).map (fun a => a.shift) = p2
    split_ifs with h1 h2 h3 h4 h5 <;> try dsimp only
    all_goals simp_all
  · refine fun err => ?_
    unfold swap_shifts
    rw [if_neg (show ¬((day < 1 || day > dim) = true) from by simp; omega)]
    rw [if_neg (show ¬((e1 == e2) = true) from by simp [hne])]
    rw [if_neg (by simp [he1, he2])]
    try dsimp only
    generalize ((dbLookup db e1 (base + (day : Int))).map (fun a => a.shift)).getD 0 = s1
    generalize ((dbLookup db e2 (base + (day : Int))).map (fun a => a.shift)).getD 0 = s2
    generalize (dbLookup db e1 (base + (day : Int) - 1)).map (fun a => a.shift) = p1
    generalize (dbLookup db e2 (base + (day : Int) - 1)).map (fun a => a.shift) = p2
    split_ifs <;> intro herr
    all_goals first
      | rfl
      | (exfalso; simpa using herr)

/-- Witness for C7: giving employee 1 (whose day 3 is Night) employee 2's
Morning on day 4 is an invalid transition, and the store is untouched. -/
theorem c7_swap_rejects_exactly_witness :
    ((swap_shifts [1, 2] 28 100 [⟨1, 3, 3, 103⟩, ⟨2, 4, 1, 104⟩] 1 2 4).2 =
        some .invalidTransition ↔
      swap_reject_claim [⟨1, 3, 3, 103⟩, ⟨2, 4, 1, 104⟩] 100 1 2 4 = true) ∧
    (∀ err,
      (swap_shifts [1, 2] 28 100 [⟨1, 3, 3, 103⟩, ⟨2, 4, 1, 104⟩] 1 2 4).2 = some err →
      (swap_shifts [1, 2] 28 100 [⟨1, 3, 3, 103⟩, ⟨2, 4, 1, 104⟩] 1 2 4).1 =
        [⟨1, 3, 3, 103⟩, ⟨2, 4, 1, 104⟩]) :=
  c7_swap_rejects_exactly [1, 2] 28 100 [⟨1, 3, 3, 103⟩, ⟨2, 4, 1, 104⟩] 1 2 4
    (by omega) (by omega) (by omega) (by decide) (by decide)

/-- Witness for C1: day 2 of a 3-day row with two leading Nights, candidate
Morning — both sides evaluate and agree. -/
theorem c1_legality_matches_claim_witness :
    2 < ([some 3, some 3, some 0] : Row).length ∧
    is_shift_viable [some 3, some 3, some 0] 2 (some 1) =
      viable_claim [some 3, some 3, some 0] 2 1 :=
  ⟨by decide, c1_legality_matches_claim [some 3, some 3, some 0] 2 1 (by decide)⟩

set_option maxRecDepth 200000 in
theorem c4hP0 : assign_night_shift_pairs headRevRand (List.range 6) 57
    (List.replicate 6 (List.replicate 57 none)) (List.replicate 57 0) = (c4P0m, c4P0o) := by
  rfl

set_option maxRecDepth 200000 in
theorem c4ha1 : List.foldl (p1aDay (List.range 6))
    ⟨c4P0m, List.replicate 6 [0, 0, 0, 0], c4P0o,
      (List.range 6).map (fun _ => (-10 : Int)), (List.range 6).map (fun _ => [])⟩
    (List.range' 0 10) = c4A := by
  rfl

set_option maxRecDepth 200000 in
theorem c4ha2 : List.foldl (p1aDay (List.range 6))
    c4A
    (List.range' 10 10) = c4A := by
  rfl

set_option maxRecDepth 200000 in
theorem c4ha3 : List.foldl (p1aDay (List.range 6))
    c4A
    (List.range' 20 10) = c4A := by
  rfl

set_option maxRecDepth 200000 in
theorem c4ha4 : List.foldl (p1aDay (List.range 6))
    c4A
    (List.range' 30 10) = c4A := by
  rfl

set_option maxRecDepth 200000 in
theorem c4ha5 : List.foldl (p1aDay (List.range 6))
    c4A
    (List.range' 40 10) = c4A := by
  rfl

set_option maxRecDepth 200000 in
theorem c4ha6 : List.foldl (p1aDay (List.range 6))
    c4A
    (List.range' 50 7) = c4A := by
  rfl

set_option maxRecDepth 200000 in
theorem c4hA : List.foldl (p1aDay (List.range 6))
    ⟨c4P0m, List.replicate 6 [0, 0, 0, 0], c4P0o,
      (List.range 6).map (fun _ => (-10 : Int)), (List.range 6).map (fun _ => [])⟩
    (List.range 57) = c4A := by
  rw [show (List.range 57 : List Nat) = List.range' 0 10 ++
    List.range' 10 10 ++
    List.range' 20 10 ++
    List.range' 30 10 ++
    List.range' 40 10 ++
    List.range' 50 7 from by rfl]
  rw [List.foldl_append, List.foldl_append, List.foldl_append, List.foldl_append,
    List.foldl_append, c4ha1, c4ha2, c4ha3, c4ha4, c4ha5, c4ha6]

set_option maxRecDepth 200000 in
theorem c4hB : List.foldl (p1bWeek headRevRand (List.range 6) 57) c4A
    (List.range ((57 + 6) / 7)) = c4B := by
  rfl

set_option maxRecDepth 200000 in
theorem c4hc1 : List.foldl (p1sweep headRevRand (List.range 6)) c4B
    (List.range' 0 10) = c4C10 := by
  rfl

set_option maxRecDepth 200000 in
theorem c4hc2 : List.foldl (p1sweep headRevRand (List.range 6)) c4C10
    (List.range' 10 10) = c4C20 := by
  rfl

set_option maxRecDepth 200000 in
theorem c4hc3 : List.foldl (p1sweep headRevRand (List.range 6)) c4C20
    (List.range' 20 10) = c4C30 := by
  rfl

set_option maxRecDepth 200000 in
theorem c4hc4 : List.foldl (p1sweep headRevRand (List.range 6)) c4C30
    (List.range' 30 10) = c4C40 := by
  rfl

set_option maxRecDepth 200000 in
theorem c4hc5 : List.foldl (p1sweep headRevRand (List.range 6)) c4C40
    (List.range' 40 10) = c4C50 := by
  rfl

set_option maxRecDepth 200000 in
theorem c4hc6 : List.foldl (p1sweep headRevRand (List.range 6)) c4C50
    (List.range' 50 7) = c4C57 := by
  rfl

set_option maxRecDepth 200000 in
theorem c4hC : List.foldl (p1sweep headRevRand (List.range 6)) c4B
    (List.range 57) = c4C57 := by
  rw [show (List.range 57 : List Nat) = List.range' 0 10 ++
    List.range' 10 10 ++
    List.range' 20 10 ++
    List.range' 30 10 ++
    List.range' 40 10 ++
    List.range' 50 7 from by rfl]
  rw [List.foldl_append, List.foldl_append, List.foldl_append, List.foldl_append,
    List.foldl_append, c4hc1, c4hc2, c4hc3, c4hc4, c4hc5, c4hc6]

set_option maxRecDepth 200000 in
theorem c4hP1 : phase1 headRevRand (List.range 6) 57
    ⟨c4P0m, List.replicate 6 [0, 0, 0, 0], c4P0o⟩ = c4G2 := by
  unfold phase1
  try dsimp only
  rw [c4hA, c4hB, c4hC]
  rfl

set_option maxRecDepth 200000 in
theorem c4hp2a : List.foldl (p2day (List.range 6)) c4G2
    (List.range' 0 7) = c4P2a := by
  rfl

set_option maxRecDepth 200000 in
theorem c4hp2b : List.foldl (p2day (List.range 6)) c4P2a
    (List.range' 7 7) = c4P2b := by
  rfl

set_option maxRecDepth 200000 in
theorem c4hp2c : List.foldl (p2day (List.range 6)) c4P2b
    (List.range' 14 7) = c4P2c := by
  rfl

set_option maxRecDepth 200000 in
theorem c4hp2d : List.foldl (p2day (List.range 6)) c4P2c
    (List.range' 21 7) = c4G3 := by
  rfl

set_option maxRecDepth 200000 in
theorem c4hP2 : phase2 (List.range 6) 57 c4G2 = c4G3 := by
  unfold phase2
  rw [show (List.range (min 28 57) : List Nat) = List.range' 0 7 ++ List.range' 7 7 ++ List.range' 14 7 ++ List.range' 21 7 from by rfl]
  rw [List.foldl_append, List.foldl_append, List.foldl_append,
    c4hp2a, c4hp2b, c4hp2c, c4hp2d]

set_option maxRecDepth 200000 in
theorem c4hp3a : List.foldl (p3day (List.range 6)) c4G3
    (List.range' 28 10) = c4P3a := by
  rfl

set_option maxRecDepth 200000 in
theorem c4hp3b : List.foldl (p3day (List.range 6)) c4P3a
    (List.range' 38 10) = c4P3b := by
  rfl

set_option maxRecDepth 200000 in
theorem c4hp3c : List.foldl (p3day (List.range 6)) c4P3b
    (List.range' 48 9) = c4G4 := by
  rfl

set_option maxRecDepth 200000 in
theorem c4hP3 : phase3 (List.range 6) 57 c4G3 = c4G4 := by
  unfold phase3
  rw [show (List.range' 28 (57 - 28) : List Nat) = List.range' 28 10 ++ List.range' 38 10 ++ List.range' 48 9 from by rfl]
  rw [List.foldl_append, List.foldl_append, c4hp3a, c4hp3b, c4hp3c]

set_option maxRecDepth 200000 in
theorem c4hg4i :
    (⟨c4G4.shifts, recountAll 57 (List.range 6) c4G4.shifts, c4G4.offs⟩ : GenState) =
      c4G4i := by
  rfl

set_option maxRecDepth 200000 in
theorem c4hp4a : List.foldl (balanceDay (List.range 6)) c4G4i
    (List.range' 0 8) = c4G4i := by
  rfl

set_option maxRecDepth 200000 in
theorem c4hp4b : List.foldl (balanceDay (List.range 6)) c4G4i
    (List.range' 8 8) = c4G4i := by
  rfl

set_option maxRecDepth 200000 in
theorem c4hp4c : List.foldl (balanceDay (List.range 6)) c4G4i
    (List.range' 16 8) = c4G4i := by
  rfl

set_option maxRecDepth 200000 in
theorem c4hp4d : List.foldl (balanceDay (List.range 6)) c4G4i
    (List.range' 24 8) = c4P4a := by
  rfl

set_option maxRecDepth 200000 in
theorem c4hp4e : List.foldl (balanceDay (List.range 6)) c4P4a
    (List.range' 32 8) = c4P4b := by
  rfl

set_option maxRecDepth 200000 in
theorem c4hp4f : List.foldl (balanceDay (List.range 6)) c4P4b
    (List.range' 40 8) = c4P4c := by
  rfl

set_option maxRecDepth 200000 in
theorem c4hp4g : List.foldl (balanceDay (List.range 6)) c4P4c
    (List.range' 48 9) = c4G5 := by
  rfl

set_option maxRecDepth 200000 in
theorem c4hP4 : phase4 (List.range 6) 57 c4G4 = c4G5 := by
  unfold phase4
  try dsimp only
  rw [c4hg4i]
  rw [show (List.range 57 : List Nat) = List.range' 0 8 ++
    List.range' 8 8 ++
    List.range' 16 8 ++
    List.range' 24 8 ++
    List.range' 32 8 ++
    List.range' 40 8 ++
    List.range' 48 9 from by rfl]
  rw [List.foldl_append, List.foldl_append, List.foldl_append, List.foldl_append,
    List.foldl_append, List.foldl_append,
    c4hp4a, c4hp4b, c4hp4c, c4hp4d, c4hp4e, c4hp4f, c4hp4g]

set_option maxRecDepth 200000 in
theorem c4hp45a : List.foldl (p45dayGo (List.range 6)) c4G5
    (List.range' 0 10) = c4G5 := by
  rfl

set_option maxRecDepth 200000 in
theorem c4hp45b : List.foldl (p45dayGo (List.range 6)) c4G5
    (List.range' 10 10) = c4G5 := by
  rfl

set_option maxRecDepth 200000 in
theorem c4hp45c : List.foldl (p45dayGo (List.range 6)) c4G5
    (List.range' 20 10) = c4G5 := by
  rfl

set_option maxRecDepth 200000 in
theorem c4hp45d : List.foldl (p45dayGo (List.range 6)) c4G5
    (List.range' 30 10) = c4G5 := by
  rfl

set_option maxRecDepth 200000 in
theorem c4hp45e : List.foldl (p45dayGo (List.range 6)) c4G5
    (List.range' 40 10) = c4G5 := by
  rfl

set_option maxRecDepth 200000 in
theorem c4hp45f : List.foldl (p45dayGo (List.range 6)) c4G5
    (List.range' 50 7) = c4G5 := by
  rfl

set_option maxRecDepth 200000 in
theorem c4hP45 : phase45 (List.range 6) 57 c4G5 = c4G5 := by
  unfold phase45
  rw [show (List.range 57 : List Nat) = List.range' 0 10 ++
    List.range' 10 10 ++
    List.range' 20 10 ++
    List.range' 30 10 ++
    List.range' 40 10 ++
    List.range' 50 7 from by rfl]
  rw [List.foldl_append, List.foldl_append, List.foldl_append, List.foldl_append,
    List.foldl_append, c4hp45a, c4hp45b, c4hp45c, c4hp45d, c4hp45e, c4hp45f]

set_option maxRecDepth 200000 in
theorem c4hP46 : phase46 (List.range 6) 57 c4G5 = .ok c4G5 := by
  rfl

set_option maxRecDepth 200000 in
theorem c4hp5e0 : p5emp [0, 1, 2, 3, 4, 5] 57 c4G5 0 = c4G5 := by
  rfl

set_option maxRecDepth 200000 in
theorem c4hp5e1 : p5emp [0, 1, 2, 3, 4, 5] 57 c4G5 1 = c4G5 := by
  rfl

set_option maxRecDepth 200000 in
theorem c4hp5e2 : p5emp [0, 1, 2, 3, 4, 5] 57 c4G5 2 = c4G5 := by
  rfl

set_option maxRecDepth 200000 in
theorem c4hp5e3 : p5emp [0, 1, 2, 3, 4, 5] 57 c4G5 3 = c4G5 := by
  rfl

set_option maxRecDepth 200000 in
theorem c4hp5e4 : p5emp [0, 1, 2, 3, 4, 5] 57 c4G5 4 = c4G5 := by
  rfl

set_option maxRecDepth 200000 in
theorem c4hp5e5 : p5emp [0, 1, 2, 3, 4, 5] 57 c4G5 5 = c4G5 := by
  rfl

set_option maxRecDepth 200000 in
theorem c4hP5 : phase5 (List.range 6) 57 c4G5 = c4G5 := by
  show List.foldl (p5emp (List.range 6) 57) c4G5 (List.range 6) = c4G5
  rw [show (List.range 6 : List Nat) = [0, 1, 2, 3, 4, 5] from by rfl]
  rw [List.foldl_cons, c4hp5e0, List.foldl_cons, c4hp5e1, List.foldl_cons, c4hp5e2,
    List.foldl_cons, c4hp5e3, List.foldl_cons, c4hp5e4, List.foldl_cons, c4hp5e5,
    List.foldl_nil]

set_option maxRecDepth 200000 in
theorem c4hp6n0 : List.foldl (p6nnDay [0, 1, 2, 3, 4, 5] 0) c4G5
    (List.range' 2 (57 - 2)) = c4G5 := by
  rfl

set_option maxRecDepth 200000 in
theorem c4hp6q0 : List.foldl (p6patDay [0, 1, 2, 3, 4, 5] 0) c4G5
    (List.range' 3 (57 - 3)) = c4G5 := by
  rfl

set_option maxRecDepth 200000 in
theorem c4hp6e0 : p6emp [0, 1, 2, 3, 4, 5] 57 c4G5 0 = c4G5 := by
  unfold p6emp
  try dsimp only
  rw [c4hp6n0, c4hp6q0]

set_option maxRecDepth 200000 in
theorem c4hp6n1 : List.foldl (p6nnDay [0, 1, 2, 3, 4, 5] 1) c4G5
    (List.range' 2 (57 - 2)) = c4G5 := by
  rfl

set_option maxRecDepth 200000 in
theorem c4hp6q1 : List.foldl (p6patDay [0, 1, 2, 3, 4, 5] 1) c4G5
    (List.range' 3 (57 - 3)) = c4G5 := by
  rfl

set_option maxRecDepth 200000 in
theorem c4hp6e1 : p6emp [0, 1, 2, 3, 4, 5] 57 c4G5 1 = c4G5 := by
  unfold p6emp
  try dsimp only
  rw [c4hp6n1, c4hp6q1]

set_option maxRecDepth 200000 in
theorem c4hp6n2 : List.foldl (p6nnDay [0, 1, 2, 3, 4, 5] 2) c4G5
    (List.range' 2 (57 - 2)) = c4G5 := by
  rfl

set_option maxRecDepth 200000 in
theorem c4hp6q2 : List.foldl (p6patDay [0, 1, 2, 3, 4, 5] 2) c4G5
    (List.range' 3 (57 - 3)) = c4G5 := by
  rfl

set_option maxRecDepth 200000 in
theorem c4hp6e2 : p6emp [0, 1, 2, 3, 4, 5] 57 c4G5 2 = c4G5 := by
  unfold p6emp
  try dsimp only
  rw [c4hp6n2, c4hp6q2]

set_option maxRecDepth 200000 in
theorem c4hp6n3 : List.foldl (p6nnDay [0, 1, 2, 3, 4, 5] 3) c4G5
    (List.range' 2 (57 - 2)) = c4G5 := by
  rfl

set_option maxRecDepth 200000 in
theorem c4hp6q3 : List.foldl (p6patDay [0, 1, 2, 3, 4, 5] 3) c4G5
    (List.range' 3 (57 - 3)) = c4G5 := by
  rfl

set_option maxRecDepth 200000 in
theorem c4hp6e3 : p6emp [0, 1, 2, 3, 4, 5] 57 c4G5 3 = c4G5 := by
  unfold p6emp
  try dsimp only
  rw [c4hp6n3, c4hp6q3]

set_option maxRecDepth 200000 in
theorem c4hp6n4 : List.foldl (p6nnDay [0, 1, 2, 3, 4, 5] 4) c4G5
    (List.range' 2 (57 - 2)) = c4G5 := by
  rfl

set_option maxRecDepth 200000 in
theorem c4hp6q4 : List.foldl (p6patDay [0, 1, 2, 3, 4, 5] 4) c4G5
    (List.range' 3 (57 - 3)) = c4G5 := by
  rfl

set_option maxRecDepth 200000 in
theorem c4hp6e4 : p6emp [0, 1, 2, 3, 4, 5] 57 c4G5 4 = c4G5 := by
  unfold p6emp
  try dsimp only
  rw [c4hp6n4, c4hp6q4]

set_option maxRecDepth 200000 in
theorem c4hp6n5 : List.foldl (p6nnDay [0, 1, 2, 3, 4, 5] 5) c4G5
    (List.range' 2 (57 - 2)) = c4G5 := by
  rfl

set_option maxRecDepth 200000 in
theorem c4hp6q5 : List.foldl (p6patDay [0, 1, 2, 3, 4, 5] 5) c4G5
    (List.range' 3 (57 - 3)) = c4G5 := by
  rfl

set_option maxRecDepth 200000 in
theorem c4hp6e5 : p6emp [0, 1, 2, 3, 4, 5] 57 c4G5 5 = c4G5 := by
  unfold p6emp
  try dsimp only
  rw [c4hp6n5, c4hp6q5]

set_option maxRecDepth 200000 in
theorem c4hP6 : phase6 (List.range 6) 57 c4G5 = c4G5 := by
  show List.foldl (p6emp (List.range 6) 57) c4G5 (List.range 6) = c4G5
  rw [show (List.range 6 : List Nat) = [0, 1, 2, 3, 4, 5] from by rfl]
  rw [List.foldl_cons, c4hp6e0, List.foldl_cons, c4hp6e1, List.foldl_cons, c4hp6e2,
    List.foldl_cons, c4hp6e3, List.foldl_cons, c4hp6e4, List.foldl_cons, c4hp6e5,
    List.foldl_nil]

set_option maxRecDepth 200000 in
theorem c4hpre : preNN headRevRand 6 57 = c4G5 := by
  unfold preNN
  rw [c4hP0]
  rw [show ((c4P0m, c4P0o).1 : ShiftMatrix) = c4P0m from rfl,
      show ((c4P0m, c4P0o).2 : List Nat) = c4P0o from rfl]
  rw [c4hP1, c4hP2, c4hP3, c4hP4, c4hP45]

set_option maxRecDepth 200000 in
theorem c4hGen : generate_optimized_shifts headRevRand 6 57 = .ok c4M9 := by
  unfold generate_optimized_shifts
  rw [if_neg (by decide)]
  rw [c4hpre, c4hP46]
  try dsimp only
  rw [c4hP5, c4hP6]
  rfl

/-- C4, counterexample: in the 57-day run with six employees the final
matrix has a Night-Night block on days 54-55 of employee 1 whose following
day 56 (< 57) is unset rather than Off. -/
theorem c4_counterexample :
    generate_optimized_shifts headRevRand 6 57 = .ok c4M9 ∧
    mget c4M9 1 54 = some 3 ∧ mget c4M9 1 55 = some 3 ∧ 54 + 2 < 57 ∧
    mget c4M9 1 56 = none ∧ mget c4M9 1 56 ≠ some 0 :=
  ⟨c4hGen, by rfl, by rfl, by decide, by rfl, by decide⟩

theorem insertLe_length {le : α → α → Bool} (x : α) (l : List α) :
    (insertLe le x l).length = l.length + 1 := by
  induction l with
  | nil => rfl
  | cons y ys ih =>
    unfold insertLe
    split
    · simp [ih]
    · simp

theorem sortByKey_length {key : α → List Int} (l : List α) :
    (sortByKey key l).length = l.length := by
  suffices h : ∀ (l acc : List α), (l.foldl (fun acc x =>
      insertLe (fun a b => leLex (key a) (key b)) x acc) acc).length =
        l.length + acc.length by
    simpa using h l []
  intro l
  induction l with
  | nil => intro acc; simp
  | cons x xs ih =>
    intro acc
    rw [List.foldl_cons, ih, insertLe_length]
    simp
    omega

theorem headD_mem {l : List α} (h : l ≠ []) (d : α) : l.headD d ∈ l := by
  cases l with
  | nil => exact absurd rfl h
  | cons x xs => simp [List.headD]

/-- C4 amended: the Phase 6 N-N enforcement forces a set, non-Off cell right
after a Night-Night block to `Off` (any replacement draft touches only other
employees' rows), but an unset cell after a Night-Night block is skipped
untouched — the followed-by-Off guarantee holds only for assigned cells. -/
theorem c4_amended_nn_enforcement (names : List Nat) (e day : Nat) (g : GenState)
    (h2 : mget g.shifts e (day - 2) = some 3) (h1 : mget g.shifts e (day - 1) = some 3) :
    (∀ c, mget g.shifts e day = some c → c ≠ 0 →
      mget (p6nnDay names e g day).shifts e day = some 0) ∧
    (mget g.shifts e day = none → p6nnDay names e g day = g) := by
  constructor
  · intro c hc hc0
    obtain ⟨hbe, hbd⟩ := mget_some_bounds hc
    unfold p6nnDay
    rw [h2, h1, hc]
    rw [if_neg (by simp [hc0])]
    try dsimp only
    set filt := List.filter (fun x =>
      x != e && mget (mset g.shifts e day (some 0)) x day != some 0 &&
          mget (mset g.shifts e day (some 0)) x day != none &&
        is_shift_viable (mrow (mset g.shifts e day (some 0)) x) day (some c)) names
      with hfilt
    split
    · split
      · exact mget_mset_self hbe hbd _
      · next hne =>
        have hcands : filt ≠ [] := by
          intro hnil
          rw [hnil] at hne
          simp at hne
        have hmemf : (sortByKey (fun x =>
            [cget (cadd (cadd g.counts e c (-1)) e 0 1) x c,
             if (mget (mset g.shifts e day (some 0)) x day != some 1) = true then 1
             else 0]) filt).headD 0 ∈ filt := by
          apply sortByKey_mem
          apply headD_mem
          intro hnil
          have hlen := congrArg List.length hnil
          rw [sortByKey_length] at hlen
          simp at hlen
          exact hcands hlen
        have hse : ((sortByKey (fun x =>
            [cget (cadd (cadd g.counts e c (-1)) e 0 1) x c,
             if (mget (mset g.shifts e day (some 0)) x day != some 1) = true then 1
             else 0]) filt).headD 0) ≠ e := by
          have hp := (List.mem_filter.mp (hfilt ▸ hmemf)).2
          simp only [Bool.and_eq_true] at hp
          exact bne_iff_ne.mp hp.1.1.1
        split
        · try dsimp only
          rw [mget_mset_ne_emp (Ne.symm hse)]
          exact mget_mset_self hbe hbd _
        · exact mget_mset_self hbe hbd _
    · exact mget_mset_self hbe hbd _
  · intro hn
    unfold p6nnDay
    rw [h2, h1, hn]
    rfl

/-- Witness for the amended C4 theorem: a `[N, N, M]` row is corrected to
`[N, N, Off]` by the enforcement step. -/
theorem c4_amended_nn_enforcement_witness :
    mget (p6nnDay [0] 0 ⟨[[some 3, some 3, some 1]], [[0, 1, 0, 2]], [0, 0, 0]⟩ 2).shifts
      0 2 = some 0 :=
  (c4_amended_nn_enforcement [0] 0 2 ⟨[[some 3, some 3, some 1]], [[0, 1, 0, 2]], [0, 0, 0]⟩
    (by decide) (by decide)).1 1 (by decide) (by decide)
